import Mathlib

/-!
Verification development for the backend2 subsystem of the nhl-led-scoreboard
repository: a shallow embedding in Lean 4 of the cache (src/backend2/cache.py),
the normalizer (src/backend2/parser.py), the adaptive poller
(src/backend2/poller.py) and the key extraction of discovery
(src/backend2/discovery.py), together with theorems settling the specification
claims about them.

Modelling conventions:
- JSON payloads (Python dicts/lists/scalars decoded from JSON) are the
  inductive type `Json`.  Python dicts are association lists with unique keys
  in insertion order; Python `None` is `Json.null`.  JSON floats are not used
  by any claim and numbers are modelled as `Int`.
- Wall-clock times (Python floats from time.time()) are modelled as `Int`
  seconds; only their ordering and addition matter to the code paths claimed.
- Cryptographic digests (md5/sha256 hexdigests) are abstracted to their
  pre-image string: the code uses them only as opaque identity tokens
  compared for equality, and no claim depends on digest collisions.
- Python exceptions are an explicit `Except String` channel; an `Except.error`
  models a raised exception, and `try/except` blocks in the source become
  `match` on that channel.  Error message texts are abbreviated markers, not
  verbatim Python messages.
- Disk and network I/O are assumed to succeed (the cache claims are about the
  successful-write path); recursion is bounded by explicit fuel standing for
  the Python interpreter recursion limit, whose exhaustion models
  RecursionError.
-/

/-- JSON value as decoded by Python json.load: dicts are insertion-ordered
association lists with unique keys, None is null. -/
inductive Json where
  | null : Json
  | bool (b : Bool) : Json
  | num (n : Int) : Json
  | str (s : String) : Json
  | arr (elems : List Json) : Json
  | obj (fields : List (String × Json)) : Json
  deriving Repr

mutual

def Json.decEq : (a b : Json) → Decidable (a = b)
  | .null, .null => isTrue rfl
  | .bool a, .bool b =>
    if h : a = b then isTrue (by rw [h]) else isFalse (by simp [h])
  | .num a, .num b =>
    if h : a = b then isTrue (by rw [h]) else isFalse (by simp [h])
  | .str a, .str b =>
    if h : a = b then isTrue (by rw [h]) else isFalse (by simp [h])
  | .arr xs, .arr ys =>
    match Json.decEqList xs ys with
    | isTrue h => isTrue (by rw [h])
    | isFalse h => isFalse (by simp [h])
  | .obj xs, .obj ys =>
    match Json.decEqObj xs ys with
    | isTrue h => isTrue (by rw [h])
    | isFalse h => isFalse (by simp [h])
  | .null, .bool _ => isFalse Json.noConfusion
  | .null, .num _ => isFalse Json.noConfusion
  | .null, .str _ => isFalse Json.noConfusion
  | .null, .arr _ => isFalse Json.noConfusion
  | .null, .obj _ => isFalse Json.noConfusion
  | .bool _, .null => isFalse Json.noConfusion
  | .bool _, .num _ => isFalse Json.noConfusion
  | .bool _, .str _ => isFalse Json.noConfusion
  | .bool _, .arr _ => isFalse Json.noConfusion
  | .bool _, .obj _ => isFalse Json.noConfusion
  | .num _, .null => isFalse Json.noConfusion
  | .num _, .bool _ => isFalse Json.noConfusion
  | .num _, .str _ => isFalse Json.noConfusion
  | .num _, .arr _ => isFalse Json.noConfusion
  | .num _, .obj _ => isFalse Json.noConfusion
  | .str _, .null => isFalse Json.noConfusion
  | .str _, .bool _ => isFalse Json.noConfusion
  | .str _, .num _ => isFalse Json.noConfusion
  | .str _, .arr _ => isFalse Json.noConfusion
  | .str _, .obj _ => isFalse Json.noConfusion
  | .arr _, .null => isFalse Json.noConfusion
  | .arr _, .bool _ => isFalse Json.noConfusion
  | .arr _, .num _ => isFalse Json.noConfusion
  | .arr _, .str _ => isFalse Json.noConfusion
  | .arr _, .obj _ => isFalse Json.noConfusion
  | .obj _, .null => isFalse Json.noConfusion
  | .obj _, .bool _ => isFalse Json.noConfusion
  | .obj _, .num _ => isFalse Json.noConfusion
  | .obj _, .str _ => isFalse Json.noConfusion
  | .obj _, .arr _ => isFalse Json.noConfusion

def Json.decEqList : (xs ys : List Json) → Decidable (xs = ys)
  | [], [] => isTrue rfl
  | [], _ :: _ => isFalse (by simp)
  | _ :: _, [] => isFalse (by simp)
  | x :: xs, y :: ys =>
    match Json.decEq x y, Json.decEqList xs ys with
    | isTrue h1, isTrue h2 => isTrue (by rw [h1, h2])
    | isFalse h1, _ => isFalse (by simp [h1])
    | _, isFalse h2 => isFalse (by simp [h2])

def Json.decEqObj : (xs ys : List (String × Json)) → Decidable (xs = ys)
  | [], [] => isTrue rfl
  | [], _ :: _ => isFalse (by simp)
  | _ :: _, [] => isFalse (by simp)
  | (k1, v1) :: xs, (k2, v2) :: ys =>
    match String.decEq k1 k2, Json.decEq v1 v2, Json.decEqObj xs ys with
    | isTrue h0, isTrue h1, isTrue h2 => isTrue (by rw [h0, h1, h2])
    | isFalse h0, _, _ => isFalse (by simp [h0])
    | _, isFalse h1, _ => isFalse (by simp [h1])
    | _, _, isFalse h2 => isFalse (by simp [h2])

end

instance : DecidableEq Json := Json.decEq

/-- Decidable equality on the exception channel, so concrete runs can be
checked by decide. -/
def exceptJsonDecEq : (a b : Except String Json) → Decidable (a = b)
  | .error a, .error b =>
    if h : a = b then isTrue (by rw [h]) else isFalse (by simp [h])
  | .ok a, .ok b =>
    if h : a = b then isTrue (by rw [h]) else isFalse (by simp [h])
  | .error _, .ok _ => isFalse Except.noConfusion
  | .ok _, .error _ => isFalse Except.noConfusion

instance : DecidableEq (Except String Json) := exceptJsonDecEq

/-- Whether the character list starts with the given pattern. -/
def startsWithChars : List Char → List Char → Bool
  | _, [] => true
  | [], _ :: _ => false
  | c :: cs, d :: ds => c = d && startsWithChars cs ds

/-- Whether the pattern occurs anywhere in the character list. -/
def containsSearch : List Char → List Char → Bool
  | [], pat => pat.isEmpty
  | c :: rest, pat => startsWithChars (c :: rest) pat || containsSearch rest pat

/-- Python substring containment `sub in s` for strings; the empty pattern is
contained in every string.  (Implemented over character lists so the kernel
can evaluate it on concrete inputs.) -/
def containsSubstr (s sub : String) : Bool :=
  containsSearch s.toList sub.toList

/-- Accumulator loop of the single-character split below. -/
def splitOnCharAux (sep : Char) : List Char → List Char → List String
  | [], acc => [String.mk acc.reverse]
  | c :: rest, acc =>
    if c = sep then String.mk acc.reverse :: splitOnCharAux sep rest []
    else splitOnCharAux sep rest (c :: acc)

/-- Python str.split(sep) for a single-character separator, as the source
uses for dots, brackets and the T of ISO timestamps. -/
def pySplitChar (s : String) (sep : Char) : List String :=
  splitOnCharAux sep s.toList []

/-- Python str.endswith. -/
def pyEndsWith (s suffixStr : String) : Bool :=
  startsWithChars s.toList.reverse suffixStr.toList.reverse

/-- Python str.lower (ASCII, which is all the source compares). -/
def pyToLower (s : String) : String :=
  String.mk (s.toList.map Char.toLower)

/-- Whitespace recognizer for Python str.strip as used by int(). -/
def isSpaceChar (c : Char) : Bool :=
  c = ' ' || c = '\t' || c = '\n' || c = '\r'

/-- Python str.strip() on both ends. -/
def pyStrip (s : String) : String :=
  String.mk (((s.toList.dropWhile isSpaceChar).reverse.dropWhile isSpaceChar).reverse)

/-- Fueled scan of Python str.replace: replace every non-overlapping
leftmost occurrence; the fuel is the input length plus one, which the scan
never exhausts.  The empty-pattern corner (Python interleaves the
replacement) is not modelled; the patterns the source passes are key paths
from non-empty dict keys. -/
def replaceCharsFuel : Nat → List Char → List Char → List Char → List Char
  | 0, s, _, _ => s
  | _ + 1, [], _, _ => []
  | fuel + 1, c :: rest, pat, rep =>
    if !pat.isEmpty && startsWithChars (c :: rest) pat then
      rep ++ replaceCharsFuel fuel (List.drop (pat.length - 1) rest) pat rep
    else c :: replaceCharsFuel fuel rest pat rep

/-- Python str.replace(pat, rep) (all occurrences). -/
def pyReplace (s pat rep : String) : String :=
  String.mk (replaceCharsFuel (s.toList.length + 1) s.toList pat.toList rep.toList)

/-- Python truthiness `bool(v)` of a decoded JSON value. -/
def pyTruthy : Json → Bool
  | .null => false
  | .bool b => b
  | .num n => n != 0
  | .str s => s ≠ ""
  | .arr elems => elems ≠ []
  | .obj fields => fields ≠ []

/-- Python `type(v).__name__` for a decoded JSON value (floats unused). -/
def pyTypeName : Json → String
  | .null => "NoneType"
  | .bool _ => "bool"
  | .num _ => "int"
  | .str _ => "str"
  | .arr _ => "list"
  | .obj _ => "dict"

/-- Python `isinstance(v, (str, int, float, bool))`. -/
def isScalar : Json → Bool
  | .bool _ => true
  | .num _ => true
  | .str _ => true
  | _ => false

/-- Python `isinstance(v, (dict, list))`. -/
def isDictOrList : Json → Bool
  | .obj _ => true
  | .arr _ => true
  | _ => false

/-- Python `str(v)` for scalar values; the repr of containers is abstracted to
a fixed marker (the source only ever applies str() observably to scalars). -/
def pyStr : Json → String
  | .null => "None"
  | .bool true => "True"
  | .bool false => "False"
  | .num n => toString n
  | .str s => s
  | .arr _ => "<list repr abstracted>"
  | .obj _ => "<dict repr abstracted>"

/-- Python dict assignment `d[k] = v` on an insertion-ordered association
list: replaces the value in place if the key exists, else appends. -/
def updateAssoc {α : Type} : List (String × α) → String → α → List (String × α)
  | [], k, v => [(k, v)]
  | (k1, v1) :: rest, k, v =>
    if k1 = k then (k1, v) :: rest else (k1, v1) :: updateAssoc rest k v

/-- Python `del d[k]` (also used for dropping an index entry): removes the
binding for the key if present. -/
def eraseAssoc {α : Type} : List (String × α) → String → List (String × α)
  | [], _ => []
  | (k1, v1) :: rest, k =>
    if k1 = k then rest else (k1, v1) :: eraseAssoc rest k

/-- Insertion sort of strings (models Python sorted() on string lists). -/
def insertSortedStr (x : String) : List String → List String
  | [] => [x]
  | y :: ys => if x ≤ y then x :: y :: ys else y :: insertSortedStr x ys

/-- Python sorted() on a list of strings. -/
def sortStrings : List String → List String
  | [] => []
  | x :: xs => insertSortedStr x (sortStrings xs)

/-- Insertion sort of (key, serialized value) pairs by key (models json.dumps
with sort_keys=True; dict keys are unique so ties cannot arise). -/
def insertSortedPair (x : String × String) : List (String × String) → List (String × String)
  | [] => [x]
  | y :: ys => if x.1 ≤ y.1 then x :: y :: ys else y :: insertSortedPair x ys

/-- Sort (key, serialized value) pairs by key. -/
def sortPairs : List (String × String) → List (String × String)
  | [] => []
  | x :: xs => insertSortedPair x (sortPairs xs)

/-- String quoting for the serialization below; escaping is minimal (no claim
observes serialized text, it is only an equality token). -/
def quoteStr (s : String) : String :=
  "\"" ++ s ++ "\""

/-- Join serialized list items with the default json.dumps separator. -/
def joinItems : List String → String
  | [] => ""
  | [x] => x
  | x :: rest => x ++ ", " ++ joinItems rest

/-- Join serialized object fields with the default json.dumps separators. -/
def joinFields (pairs : List (String × String)) : String :=
  joinItems (pairs.map (fun kv => quoteStr kv.1 ++ ": " ++ kv.2))

mutual

/-- Model of Python json.dumps(v, sort_keys=True) with default separators;
used only to produce the deterministic strings that the source then hashes. -/
def dumpsSorted : Json → String
  | .null => "null"
  | .bool true => "true"
  | .bool false => "false"
  | .num n => toString n
  | .str s => quoteStr s
  | .arr elems => "[" ++ joinItems (dumpsEach elems) ++ "]"
  | .obj fields => "\x7b" ++ joinFields (sortPairs (dumpsEachField fields)) ++ "\x7d"

def dumpsEach : List Json → List String
  | [] => []
  | x :: rest => dumpsSorted x :: dumpsEach rest

def dumpsEachField : List (String × Json) → List (String × String)
  | [] => []
  | (k, v) :: rest => (k, dumpsSorted v) :: dumpsEachField rest

end

/-! ## Cache (src/backend2/cache.py) -/

/-- CacheEntry dataclass (cache.py lines 27-37). -/
structure CacheEntry where
  key : String
  data : Json
  timestamp : Int
  ttl_seconds : Int
  etag : Option String := none
  last_modified : Option String := none
  source_url : Option String := none
  content_hash : Option String := none
  deriving DecidableEq, Repr

/-- SchemaFingerprint dataclass (cache.py lines 40-49). -/
structure SchemaFingerprint where
  source_name : String
  domain : String
  key_paths : List String
  type_signatures : List (String × String)
  sample_values : List (String × Json)
  timestamp : Int
  version_hash : String
  deriving DecidableEq, Repr

/-- One record of the JSONCache index file (cache.py set, lines 152-156). -/
structure IndexEntry where
  expires_at : Int
  content_hash : String
  cached_at : Int
  deriving DecidableEq, Repr

/-- Contents of one per-key payload file written by JSONCache.set
(cache.py lines 138-146). -/
structure StoredFile where
  data : Json
  timestamp : Int
  ttl_seconds : Int
  etag : Option String
  last_modified : Option String
  source_url : Option String
  content_hash : String
  deriving DecidableEq, Repr

/-- State of a JSONCache: the in-memory index plus the payload files on disk.
Files are keyed by the cache key itself; the md5 file-name indirection of
_get_cache_path is abstracted away (it is injective up to hash collisions). -/
structure JSONCache where
  index : List (String × IndexEntry)
  files : List (String × StoredFile)
  deriving DecidableEq, Repr

/-- Content hash computed by JSONCache.set (cache.py lines 134-136):
sha256 over json.dumps(data, sort_keys=True), abstracted to the pre-image. -/
def contentHashOf (data : Json) : String :=
  dumpsSorted data

/-- JSONCache.delete (cache.py lines 164-178): unlink the payload file and
drop the index entry; idempotent, reports success. -/
def JSONCache.delete (c : JSONCache) (key : String) : Bool × JSONCache :=
  (true, { index := eraseAssoc c.index key, files := eraseAssoc c.files key })

/-- JSONCache.set (cache.py lines 125-162) at wall-clock time now: computes
the content hash, writes the payload file, and updates the index with the
expiry time.  The disk write is assumed to succeed. -/
def JSONCache.set (c : JSONCache) (now : Int) (key : String) (data : Json)
    (ttl_seconds : Int := 3600) (etag : Option String := none)
    (last_modified : Option String := none) (source_url : Option String := none) :
    Bool × JSONCache :=
  let ch := contentHashOf data
  let file : StoredFile :=
    { data := data, timestamp := now, ttl_seconds := ttl_seconds, etag := etag,
      last_modified := last_modified, source_url := source_url, content_hash := ch }
  let entry : IndexEntry := { expires_at := now + ttl_seconds, content_hash := ch, cached_at := now }
  (true, { index := updateAssoc c.index key entry, files := updateAssoc c.files key file })

/-- JSONCache.get (cache.py lines 87-123) at wall-clock time now: a missing
index entry is a miss; a missing backing file removes the stale index entry;
an entry whose expiry has passed is deleted and reported as a miss; otherwise
the stored entry is returned.  File reads are assumed uncorrupted. -/
def JSONCache.get (c : JSONCache) (now : Int) (key : String) :
    Option CacheEntry × JSONCache :=
  match c.index.lookup key with
  | none => (none, c)
  | some info =>
    match c.files.lookup key with
    | none => (none, { c with index := eraseAssoc c.index key })
    | some file =>
      if now > info.expires_at then
        (none, (c.delete key).2)
      else
        (some { key := key, data := file.data, timestamp := file.timestamp,
                ttl_seconds := file.ttl_seconds, etag := file.etag,
                last_modified := file.last_modified, source_url := file.source_url,
                content_hash := some file.content_hash }, c)

/-- JSONCache.cleanup_expired (cache.py lines 180-192): delete every index
entry whose expiry has passed. -/
def JSONCache.cleanup_expired (c : JSONCache) (now : Int) : JSONCache :=
  let expiredKeys := (c.index.filter (fun kv => now > kv.2.expires_at)).map Prod.fst
  expiredKeys.foldl (fun acc k => (acc.delete k).2) c

/-- Changes dict returned by SchemaCache.compare_fingerprints
(cache.py lines 260-266). -/
structure FingerprintChanges where
  version_changed : Bool
  new_keys : List String
  removed_keys : List String
  type_changes : List (String × Option String × Option String)
  structural_change_score : Rat
  deriving DecidableEq, Repr

/-- SchemaCache.compare_fingerprints (cache.py lines 258-290).  Python sets
are modelled as first-occurrence-deduplicated lists: the counts entering the
score are exactly the set cardinalities, and which representatives appear in
the new/removed lists is what the claims consume. -/
def SchemaCache.compare_fingerprints (old new : SchemaFingerprint) : FingerprintChanges :=
  let oldKeys := old.key_paths.dedup
  let newKeys := new.key_paths.dedup
  let newOnly := newKeys.filter (fun k => !oldKeys.contains k)
  let removed := oldKeys.filter (fun k => !newKeys.contains k)
  let common := oldKeys.filter (fun k => newKeys.contains k)
  let typeChanged := common.filter
    (fun k => old.type_signatures.lookup k != new.type_signatures.lookup k)
  let typeChanges := typeChanged.map
    (fun k => (k, old.type_signatures.lookup k, new.type_signatures.lookup k))
  let totalKeys := (oldKeys ++ newOnly).length
  let changedKeys := newOnly.length + removed.length + typeChanges.length
  { version_changed := old.version_hash != new.version_hash
    new_keys := newOnly
    removed_keys := removed
    type_changes := typeChanges
    structural_change_score :=
      if totalKeys > 0 then (changedKeys : Rat) / (totalKeys : Rat) else 0 }

mutual

/-- Body of the extract_paths closure of create_schema_fingerprint
(cache.py lines 299-314), threading the three accumulators
(key_paths, type_signatures, sample_values). -/
def extractPaths (obj : Json) (path : String)
    (acc : List String × List (String × String) × List (String × Json)) :
    List String × List (String × String) × List (String × Json) :=
  match obj with
  | .obj fields => extractPathsFields fields path acc
  | .arr (x :: _) => extractPaths x (path ++ "[0]") acc
  | _ => acc

def extractPathsFields (fields : List (String × Json)) (path : String)
    (acc : List String × List (String × String) × List (String × Json)) :
    List String × List (String × String) × List (String × Json) :=
  match fields with
  | [] => acc
  | (key, value) :: rest =>
    let currentPath := if path = "" then key else path ++ "." ++ key
    let acc1 :=
      (acc.1 ++ [currentPath],
       updateAssoc acc.2.1 currentPath (pyTypeName value),
       if isScalar value && (pyStr value).toList.length < 100 then
         updateAssoc acc.2.2 currentPath value
       else acc.2.2)
    extractPathsFields rest path (extractPaths value currentPath acc1)

end

/-- create_schema_fingerprint (cache.py lines 293-334); the sha256 version
hash is abstracted to the sorted structure string it digests. -/
def create_schema_fingerprint (data : Json) (source_name domain : String)
    (now : Int := 0) : SchemaFingerprint :=
  let acc := extractPaths data "" ([], [], [])
  let structureStr := dumpsSorted (Json.obj
    [("paths", Json.arr ((sortStrings acc.1).map Json.str)),
     ("types", Json.obj (acc.2.1.map (fun p => (p.1, Json.str p.2))))])
  { source_name := source_name, domain := domain, key_paths := acc.1,
    type_signatures := acc.2.1, sample_values := acc.2.2,
    timestamp := now, version_hash := structureStr }

/-! ## Discovery key extraction (src/backend2/discovery.py) -/

mutual

/-- Body of the extract_keys closure of _extract_expected_keys
(discovery.py lines 525-533): recursion into a value is guarded by the
50-path cap, but appends inside one dict are not. -/
def extractKeysGo (obj : Json) (path : String) (keys : List String) : List String :=
  match obj with
  | .obj fields => extractKeysFields fields path keys
  | .arr (x :: _) => if keys.length < 50 then extractKeysGo x (path ++ "[0]") keys else keys
  | _ => keys

def extractKeysFields (fields : List (String × Json)) (path : String)
    (keys : List String) : List String :=
  match fields with
  | [] => keys
  | (key, value) :: rest =>
    let currentPath := if path = "" then key else path ++ "." ++ key
    let keys1 := keys ++ [currentPath]
    let keys2 :=
      if isDictOrList value && keys1.length < 50 then extractKeysGo value currentPath keys1
      else keys1
    extractKeysFields rest path keys2

end

/-- DataSourceDiscovery._extract_expected_keys (discovery.py lines 521-536):
runs the recursive extraction and truncates the result to the first 50 keys.
The domain argument is accepted and unused, as in the source. -/
def extract_expected_keys (data : Json) (domain : String) : List String :=
  let _ := domain
  (extractKeysGo data "" []).take 50

/-! ## Normalizer (src/backend2/parser.py) -/

/-- Identifier for the transform callables installed in the rule tables
(parser.py lines 609-695); `runTransform` gives each one semantics. -/
inductive TransformId where
  | espnEvents
  | espnDate
  | extractDateFromIso
  | isoToUtc
  | mapEspnStatus
  | espnStandings
  | espnTournaments
  | espnCompetitors
  | espnSeasonId
  | pyInt
  deriving DecidableEq, Repr

/-- ParsingRule dataclass (parser.py lines 33-40); default_value None is
Json.null. -/
structure ParsingRule where
  source_path : String
  target_path : String
  transform : Option TransformId
  required : Bool
  default_value : Json
  deriving DecidableEq, Repr

/-- ParsingRule constructor with the dataclass defaults spelled out
positionally at every use site. -/
def mkRule (src tgt : String) (transform : Option TransformId) (required : Bool)
    (default_value : Json) : ParsingRule :=
  ⟨src, tgt, transform, required, default_value⟩

/-- Digits-only numeral reading used by the model of Python int(). -/
def digitsToNat? (cs : List Char) : Option Nat :=
  if cs = [] then none
  else if cs.all Char.isDigit then
    some (cs.foldl (fun acc c => acc * 10 + (c.toNat - 48)) 0)
  else none

/-- Python int(s) on a string: optional surrounding whitespace, optional
sign, then digits; anything else raises ValueError (modelled as none).
Python underscore digit grouping is not modelled; no claim exercises it. -/
def pyParseInt (s : String) : Option Int :=
  let t := pyStrip s
  match t.toList with
  | '-' :: rest => (digitsToNat? rest).map (fun n => -(n : Int))
  | '+' :: rest => (digitsToNat? rest).map (fun n => (n : Int))
  | cs => (digitsToNat? cs).map (fun n => (n : Int))

/-- Python membership test `key in current` for a string key: key lookup on
dicts, element equality on lists, substring test on strings; a number,
boolean or None on the left raises TypeError. -/
def pyContainsKey (current : Json) (key : String) : Except String Bool :=
  match current with
  | .obj fields => .ok ((fields.lookup key).isSome)
  | .arr elems => .ok (elems.contains (Json.str key))
  | .str s => .ok (containsSubstr s key)
  | .null => .error "TypeError: argument of type NoneType is not iterable"
  | .bool _ => .error "TypeError: argument of type bool is not iterable"
  | .num _ => .error "TypeError: argument of type int is not iterable"

/-- Python `current[key]` with a string key, reached only after a successful
membership test: dict subscription returns the value; list and string
subscription by a string key raises TypeError. -/
def pyGetByKey (current : Json) (key : String) : Except String Json :=
  match current with
  | .obj fields => .ok ((fields.lookup key).getD Json.null)
  | .arr _ => .error "TypeError: list indices must be integers"
  | .str _ => .error "TypeError: string indices must be integers"
  | _ => .error "TypeError: value is not subscriptable"

/-- A path segment that takes the array-indexing branch of
_extract_value_by_path: it contains both an opening and a closing bracket
(parser.py line 523). -/
def isBracketPart (part : String) : Bool :=
  part.toList.contains '[' && part.toList.contains ']'

/-- Loop body of DataParser._extract_value_by_path (parser.py lines 516-548)
over the dot-separated segments. -/
def extractGo : Json → List String → Except String Json
  | current, [] => .ok current
  | current, part :: rest =>
    if current = Json.null then .ok Json.null
    else if isBracketPart part then
      let key := (pySplitChar part '[').headD ""
      let indexStr := (pySplitChar ((pySplitChar part '[').getD 1 "") ']').headD ""
      let afterKey : Except String Json :=
        if key = "" then .ok current
        else
          match pyContainsKey current key with
          | .error e => .error e
          | .ok false => .ok current
          | .ok true => pyGetByKey current key
      match afterKey with
      | .error e => .error e
      | .ok current2 =>
        match current2 with
        | .arr elems =>
          match pyParseInt indexStr with
          | none => .ok Json.null
          | some i =>
            if h : 0 ≤ i ∧ i < (elems.length : Int) then
              extractGo (elems.get ⟨i.toNat, by omega⟩) rest
            else .ok Json.null
        | _ => .ok Json.null
    else
      match current with
      | .obj fields =>
        match fields.lookup part with
        | some v => extractGo v rest
        | none => .ok Json.null
      | _ => .ok Json.null

/-- DataParser._extract_value_by_path (parser.py lines 510-548): resolve a
dot/bracket path against a payload; `Except.error` models a raised
exception.  The missing-value answer None and a stored null are both
Json.null, exactly as they are both Python None to the caller. -/
def extract_value_by_path (data : Json) (path : String) : Except String Json :=
  if path = "" || data = Json.null then .ok data
  else extractGo data (pySplitChar path '.')

/-- Recursive part of DataParser._set_value_by_path (parser.py lines
550-566): navigate to the parent, creating empty dicts for missing keys,
then assign.  Assignment or navigation through a non-dict raises TypeError;
as in the source, an error leaves the result object unchanged because
intermediate dicts are only created where no further error can occur. -/
def setGo : Json → List String → Json → Except String Json
  | current, [], _ => .ok current
  | current, [last], value =>
    match current with
    | .obj fields => .ok (.obj (updateAssoc fields last value))
    | _ => .error "TypeError: item assignment on non-dict"
  | current, part :: rest, value =>
    match current with
    | .obj fields =>
      let child := (fields.lookup part).getD (Json.obj [])
      match setGo child rest value with
      | .error e => .error e
      | .ok child2 => .ok (.obj (updateAssoc fields part child2))
    | _ => .error "TypeError: navigation through non-dict"

/-- DataParser._set_value_by_path (parser.py lines 550-566); an empty path
is a no-op returning the data unchanged. -/
def set_value_by_path (data : Json) (path : String) (value : Json) : Except String Json :=
  if path = "" then .ok data
  else setGo data (pySplitChar path '.') value

mutual

/-- DataParser._extract_all_key_paths (parser.py lines 406-420). -/
def extractAllKeyPaths : Json → String → List String
  | .obj fields, path => extractAllFields fields path
  | .arr [], _ => []
  | .arr (x :: _), path =>
    (if path ≠ "" then [path ++ "[0]"] else []) ++
    extractAllKeyPaths x (if path ≠ "" then path ++ "[0]" else "[0]")
  | _, _ => []

def extractAllFields : List (String × Json) → String → List String
  | [], _ => []
  | (k, v) :: rest, path =>
    let cur := if path = "" then k else path ++ "." ++ k
    (cur :: extractAllKeyPaths v cur) ++ extractAllFields rest path

end

/-- Terminal segment of a removed key path: the text after the last dot and
before any bracket (parser.py line 389). -/
def keyNameOf (removedKey : String) : String :=
  (pySplitChar ((pySplitChar removedKey '.').getLastD "") '[').headD ""

/-- DataParser._find_alternative_key_path (parser.py lines 386-404): exact
suffix match first, then case-insensitive substring match, both excluding
the removed key itself. -/
def find_alternative_key_path (removedKey : String) (data : Json) : Option String :=
  let keyName := keyNameOf removedKey
  let allPaths := extractAllKeyPaths data ""
  match allPaths.find? (fun p => pyEndsWith p keyName && p != removedKey) with
  | some p => some p
  | none =>
    allPaths.find? (fun p => containsSubstr (pyToLower p) (pyToLower keyName) && p != removedKey)

/-- DataParser._get_default_for_target_path (parser.py lines 568-585). -/
def get_default_for_target_path (targetPath : String) : Json :=
  let t := pyToLower targetPath
  if containsSubstr t "score" then .num 0
  else if containsSubstr t "sog" then .num 0
  else if containsSubstr t "intermission" then .bool false
  else if containsSubstr t "plays" then .arr []
  else if containsSubstr t "id" then .num 0
  else if containsSubstr t "name" then .str "Unknown"
  else if containsSubstr t "state" then .str "UNKNOWN"
  else .null

/-- Inner loop body of DataParser._adapt_rules_for_schema_changes
(parser.py lines 364-377): the effect of one removed key on one rule.
Python str.replace replaces every occurrence, as pyReplace does here;
the empty-pattern corner (Python interleaves, Lean leaves the string
unchanged) would need an empty removed key, which no dict key path of the
source payloads produces. -/
def adaptRuleForRemovedKey (data : Json) (removedKey : String) (rule : ParsingRule) :
    ParsingRule :=
  if containsSubstr rule.source_path removedKey then
    match find_alternative_key_path removedKey data with
    | some alt => { rule with source_path := pyReplace rule.source_path removedKey alt }
    | none =>
      { rule with
        required := false
        default_value :=
          if rule.default_value = Json.null then get_default_for_target_path rule.target_path
          else rule.default_value }
  else rule

/-- DataParser._adapt_rules_for_schema_changes (parser.py lines 357-384):
the nested loops mutate the shared rule objects in place, which on an
immutable representation is a map per removed key; the new-keys loop only
logs. -/
def adapt_rules_for_schema_changes (rules : List ParsingRule)
    (changes : FingerprintChanges) (data : Json) : List ParsingRule :=
  changes.removed_keys.foldl (fun rs r => rs.map (adaptRuleForRemovedKey data r)) rules

/-- Python dict .get(key, default) reached through attribute access: raises
AttributeError when the receiver is not a dict. -/
def pyDictGet (v : Json) (key : String) (default : Json) : Except String Json :=
  match v with
  | .obj fields => .ok ((fields.lookup key).getD default)
  | _ => .error "AttributeError: value has no attribute get"

/-- Python len(v): defined for lists, dicts and strings; TypeError
otherwise. -/
def pyLen (v : Json) : Except String Nat :=
  match v with
  | .arr elems => .ok elems.length
  | .obj fields => .ok fields.length
  | .str s => .ok s.toList.length
  | .null => .error "TypeError: object of type NoneType has no len"
  | .bool _ => .error "TypeError: object of type bool has no len"
  | .num _ => .error "TypeError: object of type int has no len"

/-- Python iteration `for item in v`: list elements, dict keys, string
characters; numbers, booleans and None are not iterable. -/
def pyIterate (v : Json) : Except String (List Json) :=
  match v with
  | .arr elems => .ok elems
  | .obj fields => .ok (fields.map (fun kv => Json.str kv.1))
  | .str s => .ok (s.toList.map (fun c => Json.str (String.singleton c)))
  | .null => .error "TypeError: NoneType object is not iterable"
  | .bool _ => .error "TypeError: bool object is not iterable"
  | .num _ => .error "TypeError: int object is not iterable"

/-- Status table of DataParser._map_espn_status (parser.py lines 639-645). -/
def espnStatusMapping : List (String × Json) :=
  [("STATUS_SCHEDULED", .str "FUT"),
   ("STATUS_IN_PROGRESS", .str "LIVE"),
   ("STATUS_FINAL", .str "FINAL"),
   ("STATUS_POSTPONED", .str "PPD"),
   ("STATUS_CANCELED", .str "CAN")]

/-- DataParser._map_espn_status (parser.py lines 637-647): dict .get with the
input as fallback; an unhashable input (list/dict) raises TypeError. -/
def mapEspnStatusFn (v : Json) : Except String Json :=
  match v with
  | .str s => .ok ((espnStatusMapping.lookup s).getD (.str s))
  | .arr _ => .error "TypeError: unhashable type list"
  | .obj _ => .error "TypeError: unhashable type dict"
  | other => .ok other

/-- DataParser._extract_date_from_iso (parser.py lines 621-626): text before
the first T; the bare except returns non-strings unchanged. -/
def extractDateFromIsoFn (v : Json) : Json :=
  match v with
  | .str s => .str ((pySplitChar s 'T').headD s)
  | other => other

/-- Shape test standing in for datetime.fromisoformat acceptance: the first
19 characters are YYYY-MM-DDTHH:MM:SS with digits in the digit positions.
The full ISO-8601 grammar of the library is abstracted to this common form;
no claim observes this transform. -/
def looksIso19 (s : String) : Bool :=
  let cs := s.toList
  decide (19 ≤ cs.length) &&
  (List.range 19).all (fun i =>
    let c := cs.getD i ' '
    if i = 4 || i = 7 then c = '-'
    else if i = 10 then c = 'T'
    else if i = 13 || i = 16 then c = ':'
    else c.isDigit)

/-- DataParser._iso_to_utc (parser.py lines 628-635): reformat an accepted
timestamp to %Y-%m-%dT%H:%M:%SZ; on any parse failure (or non-string) the
bare except returns the input unchanged. -/
def isoToUtcFn (v : Json) : Json :=
  match v with
  | .str s => if looksIso19 s then .str (String.mk (s.toList.take 19) ++ "Z") else .str s
  | other => other

/-- Rounds-dict builder of DataParser._transform_espn_tournaments
(parser.py lines 660-665). -/
def buildRounds : Nat → List Json → Except String (List (String × Json))
  | _, [] => .ok []
  | i, t :: rest =>
    match pyDictGet t "events" (.arr []) with
    | .error e => .error e
    | .ok series =>
      match pyDictGet t "name" (.str ("Round " ++ toString (i + 1))) with
      | .error e => .error e
      | .ok nameV =>
        match buildRounds (i + 1) rest with
        | .error e => .error e
        | .ok restR =>
          .ok ((toString (i + 1), Json.obj [("series", series), ("name", nameV)]) :: restR)

/-- DataParser._transform_espn_tournaments (parser.py lines 654-667). -/
def espnTournamentsFn (v : Json) : Except String Json :=
  if !pyTruthy v then .ok (.obj [])
  else
    match pyIterate v with
    | .error e => .error e
    | .ok items =>
      match buildRounds 0 items with
      | .error e => .error e
      | .ok fields => .ok (.obj fields)

/-- Per-competitor record builder of DataParser._transform_espn_competitors
(parser.py lines 675-687). -/
def buildMatchupTeam (c : Json) : Except String Json := do
  let team ← pyDictGet c "team" (.obj [])
  let tid ← pyDictGet team "id" Json.null
  let tname ← pyDictGet team "displayName" Json.null
  let tcode ← pyDictGet team "abbreviation" Json.null
  let wins ← pyDictGet c "wins" (.num 0)
  let losses ← pyDictGet c "losses" (.num 0)
  .ok (Json.obj
    [("team", .obj [("id", tid), ("name", tname), ("triCode", tcode)]),
     ("seriesRecord", .obj [("wins", wins), ("losses", losses)])])

/-- DataParser._transform_espn_competitors (parser.py lines 669-689). -/
def espnCompetitorsFn (v : Json) : Except String Json :=
  if !pyTruthy v then .ok (.arr [])
  else
    match pyLen v with
    | .error e => .error e
    | .ok n =>
      if n < 2 then .ok (.arr [])
      else
        match pyIterate v with
        | .error e => .error e
        | .ok items =>
          match items.mapM buildMatchupTeam with
          | .error e => .error e
          | .ok teams => .ok (.arr teams)

/-- DataParser._transform_espn_season_id (parser.py lines 691-695); Python
booleans are ints, so a boolean year is rendered through the f-string. -/
def espnSeasonIdFn (v : Json) : Json :=
  match v with
  | .num y => .str (toString y ++ toString (y + 1))
  | .bool true => .str "True2"
  | .bool false => .str "False1"
  | other => .str (pyStr other)

/-- Python int(v) used as the transform named int in the rule tables. -/
def pyIntFn (v : Json) : Except String Json :=
  match v with
  | .num n => .ok (.num n)
  | .bool b => .ok (.num (if b then 1 else 0))
  | .str s =>
    match pyParseInt s with
    | some i => .ok (.num i)
    | none => .error "ValueError: invalid literal for int"
  | .null => .error "TypeError: int argument is NoneType"
  | .arr _ => .error "TypeError: int argument is a list"
  | .obj _ => .error "TypeError: int argument is a dict"

/-- Semantics of each transform callable referenced by the rule tables. -/
def runTransform : TransformId → Json → Except String Json
  | .espnEvents, v => .ok v
  | .espnDate, v => .ok v
  | .extractDateFromIso, v => .ok (extractDateFromIsoFn v)
  | .isoToUtc, v => .ok (isoToUtcFn v)
  | .mapEspnStatus, v => mapEspnStatusFn v
  | .espnStandings, v => .ok v
  | .espnTournaments, v => espnTournamentsFn v
  | .espnCompetitors, v => espnCompetitorsFn v
  | .espnSeasonId, v => .ok (espnSeasonIdFn v)
  | .pyInt, v => pyIntFn v

/-- DataParser._get_nhl_official_game_rules (parser.py lines 91-129). -/
def nhl_official_game_rules : List ParsingRule :=
  [mkRule "games" "games" none true .null,
   mkRule "date" "gameDate" none false .null,
   mkRule "id" "id" none true .null,
   mkRule "gameDate" "gameDate" none true .null,
   mkRule "startTimeUTC" "startTimeUTC" none true .null,
   mkRule "gameState" "gameState" none true .null,
   mkRule "gameType" "gameType" none false (.num 2),
   mkRule "awayTeam.id" "awayTeam.id" none true .null,
   mkRule "awayTeam.name.default" "awayTeam.name.default" none true .null,
   mkRule "awayTeam.abbrev" "awayTeam.abbrev" none true .null,
   mkRule "awayTeam.score" "awayTeam.score" none false (.num 0),
   mkRule "awayTeam.sog" "awayTeam.sog" none false (.num 0),
   mkRule "homeTeam.id" "homeTeam.id" none true .null,
   mkRule "homeTeam.name.default" "homeTeam.name.default" none true .null,
   mkRule "homeTeam.abbrev" "homeTeam.abbrev" none true .null,
   mkRule "homeTeam.score" "homeTeam.score" none false (.num 0),
   mkRule "homeTeam.sog" "homeTeam.sog" none false (.num 0),
   mkRule "clock.timeRemaining" "clock.timeRemaining" none false .null,
   mkRule "clock.inIntermission" "clock.inIntermission" none false (.bool false),
   mkRule "periodDescriptor.number" "periodDescriptor.number" none false (.num 1),
   mkRule "periodDescriptor.periodType" "periodDescriptor.periodType" none false .null,
   mkRule "plays" "plays" none false (.arr []),
   mkRule "situation" "situation" none false .null,
   mkRule "rosterSpots" "rosterSpots" none false (.arr [])]

/-- DataParser._get_espn_game_rules (parser.py lines 131-154). -/
def espn_game_rules : List ParsingRule :=
  [mkRule "events" "games" (some .espnEvents) true .null,
   mkRule "day.date" "gameDate" (some .espnDate) true .null,
   mkRule "id" "id" none true .null,
   mkRule "date" "gameDate" (some .extractDateFromIso) true .null,
   mkRule "date" "startTimeUTC" (some .isoToUtc) true .null,
   mkRule "status.type.name" "gameState" (some .mapEspnStatus) true .null,
   mkRule "competitions[0].competitors[1].team.id" "awayTeam.id" none true .null,
   mkRule "competitions[0].competitors[1].team.displayName" "awayTeam.name.default" none true .null,
   mkRule "competitions[0].competitors[1].team.abbreviation" "awayTeam.abbrev" none true .null,
   mkRule "competitions[0].competitors[1].score" "awayTeam.score" (some .pyInt) true (.num 0),
   mkRule "competitions[0].competitors[0].team.id" "homeTeam.id" none true .null,
   mkRule "competitions[0].competitors[0].team.displayName" "homeTeam.name.default" none true .null,
   mkRule "competitions[0].competitors[0].team.abbreviation" "homeTeam.abbrev" none true .null,
   mkRule "competitions[0].competitors[0].score" "homeTeam.score" (some .pyInt) true (.num 0)]

/-- DataParser._get_nhl_legacy_game_rules (parser.py lines 156-159) returns
the official rule list. -/
def nhl_legacy_game_rules : List ParsingRule :=
  nhl_official_game_rules

/-- DataParser._get_nhl_official_standings_rules (parser.py lines 161-176). -/
def nhl_official_standings_rules : List ParsingRule :=
  [mkRule "standings" "standings" none true .null,
   mkRule "teamName.default" "teamName.default" none true .null,
   mkRule "teamAbbrev.default" "teamAbbrev.default" none true .null,
   mkRule "wins" "wins" none true .null,
   mkRule "losses" "losses" none true .null,
   mkRule "otLosses" "otLosses" none false (.num 0),
   mkRule "points" "points" none true .null,
   mkRule "divisionSequence" "divisionSequence" none false .null,
   mkRule "conferenceSequence" "conferenceSequence" none false .null,
   mkRule "leagueSequence" "leagueSequence" none false .null]

/-- DataParser._get_espn_standings_rules (parser.py lines 178-190). -/
def espn_standings_rules : List ParsingRule :=
  [mkRule "children[0].standings.entries" "standings" (some .espnStandings) true .null,
   mkRule "team.displayName" "teamName.default" none true .null,
   mkRule "team.abbreviation" "teamAbbrev.default" none true .null,
   mkRule "stats[0].value" "wins" (some .pyInt) true .null,
   mkRule "stats[1].value" "losses" (some .pyInt) true .null,
   mkRule "stats[2].value" "otLosses" (some .pyInt) true (.num 0),
   mkRule "stats[7].value" "points" (some .pyInt) true .null]

/-- DataParser._get_nhl_official_team_rules (parser.py lines 192-203). -/
def nhl_official_team_rules : List ParsingRule :=
  [mkRule "data" "data" none true .null,
   mkRule "id" "id" none true .null,
   mkRule "triCode" "triCode" none true .null,
   mkRule "fullName" "fullName" none true .null,
   mkRule "teamName" "teamName" none false .null,
   mkRule "locationName" "locationName" none false .null]

/-- DataParser._get_backup_team_rules (parser.py lines 205-207). -/
def backup_team_rules : List ParsingRule :=
  nhl_official_team_rules

/-- DataParser._get_nhl_official_schedule_rules (parser.py lines 209-221). -/
def nhl_official_schedule_rules : List ParsingRule :=
  [mkRule "games" "games" none true .null,
   mkRule "id" "id" none true .null,
   mkRule "gameDate" "gameDate" none true .null,
   mkRule "startTimeUTC" "startTimeUTC" none true .null,
   mkRule "gameState" "gameState" none true .null,
   mkRule "awayTeam" "awayTeam" none true .null,
   mkRule "homeTeam" "homeTeam" none true .null]

/-- DataParser._get_espn_schedule_rules (parser.py lines 223-233). -/
def espn_schedule_rules : List ParsingRule :=
  [mkRule "events" "games" (some .espnEvents) true .null,
   mkRule "id" "id" none true .null,
   mkRule "date" "gameDate" (some .extractDateFromIso) true .null,
   mkRule "date" "startTimeUTC" (some .isoToUtc) true .null,
   mkRule "status.type.name" "gameState" (some .mapEspnStatus) true .null]

/-- DataParser._get_nhl_official_player_rules (parser.py lines 235-245). -/
def nhl_official_player_rules : List ParsingRule :=
  [mkRule "people" "people" none true .null,
   mkRule "id" "id" none true .null,
   mkRule "fullName" "fullName" none true .null,
   mkRule "currentTeam.id" "currentTeam.id" none false .null,
   mkRule "stats" "stats" none false (.arr [])]

/-- DataParser._get_nhl_official_playoffs_rules (parser.py lines 247-260). -/
def nhl_official_playoffs_rules : List ParsingRule :=
  [mkRule "rounds" "rounds" none true .null,
   mkRule "defaultRound" "defaultRound" none true .null,
   mkRule "season" "season" none false .null,
   mkRule "seriesLetter" "seriesLetter" none true .null,
   mkRule "matchupTeams" "matchupTeams" none true .null,
   mkRule "currentGame.seriesStatus" "currentGame.seriesStatus" none false .null,
   mkRule "seriesRecord.wins" "seriesRecord.wins" none false (.num 0),
   mkRule "seriesRecord.losses" "seriesRecord.losses" none false (.num 0)]

/-- DataParser._get_espn_playoffs_rules (parser.py lines 262-271). -/
def espn_playoffs_rules : List ParsingRule :=
  [mkRule "tournaments" "rounds" (some .espnTournaments) true .null,
   mkRule "season.year" "season" none false .null,
   mkRule "name" "seriesLetter" none false .null,
   mkRule "competitors" "matchupTeams" (some .espnCompetitors) true .null]

/-- DataParser._get_nhl_official_season_rules (parser.py lines 273-283). -/
def nhl_official_season_rules : List ParsingRule :=
  [mkRule "seasonId" "seasonId" none true .null,
   mkRule "regularSeasonStartDate" "regularSeasonStartDate" none false .null,
   mkRule "regularSeasonEndDate" "regularSeasonEndDate" none false .null,
   mkRule "playoffStartDate" "playoffStartDate" none false .null,
   mkRule "playoffEndDate" "playoffEndDate" none false .null,
   mkRule "startDate" "startDate" none false .null,
   mkRule "endDate" "endDate" none false .null]

/-- DataParser._get_espn_season_rules (parser.py lines 285-291). -/
def espn_season_rules : List ParsingRule :=
  [mkRule "season.year" "seasonId" (some .espnSeasonId) true .null,
   mkRule "season.startDate" "regularSeasonStartDate" (some .extractDateFromIso) true .null,
   mkRule "season.endDate" "regularSeasonEndDate" (some .extractDateFromIso) true .null]

/-- DataParser._initialize_parsing_rules (parser.py lines 56-89): the fixed
domain-to-source rule table, in source order. -/
def parsing_rules : List (String × List (String × List ParsingRule)) :=
  [("live_game",
    [("nhl_official", nhl_official_game_rules),
     ("espn", espn_game_rules),
     ("nhl_legacy", nhl_legacy_game_rules)]),
   ("standings",
    [("nhl_official", nhl_official_standings_rules),
     ("espn", espn_standings_rules)]),
   ("team_info",
    [("nhl_official", nhl_official_team_rules),
     ("backup_json", backup_team_rules)]),
   ("schedule",
    [("nhl_official", nhl_official_schedule_rules),
     ("espn", espn_schedule_rules)]),
   ("player_stats",
    [("nhl_official", nhl_official_player_rules)]),
   ("playoffs",
    [("nhl_official", nhl_official_playoffs_rules),
     ("espn", espn_playoffs_rules)]),
   ("season_schedule",
    [("nhl_official", nhl_official_season_rules),
     ("espn", espn_season_rules)])]

/-- DataParser._get_parsing_rules (parser.py lines 320-336): exact source
name match first, then the first configured source whose lowercased name
contains or is contained in the lowercased requested name. -/
def get_parsing_rules (domain source_name : String) : Option (List ParsingRule) :=
  match parsing_rules.lookup domain with
  | none => none
  | some domainRules =>
    match domainRules.lookup source_name with
    | some rules => some rules
    | none =>
      match domainRules.find? (fun kv =>
          containsSubstr (pyToLower kv.1) (pyToLower source_name) ||
          containsSubstr (pyToLower source_name) (pyToLower kv.1)) with
      | some kv => some kv.2
      | none => none

/-- Array indicator names used by _is_array_data and _apply_rules_to_array
(parser.py lines 456, 475, 486, 498). -/
def arrayIndicators : List String :=
  ["games", "standings", "events", "people", "data"]

/-- Exception-channel body of one iteration of the rule loop of
DataParser._apply_rules (parser.py lines 432-445): extract, default for a
missing value (None) with a warning when required, transform a present
value, and write a present value to the target path. -/
def applyOneRuleE (data result : Json) (rule : ParsingRule) : Except String Json :=
  match extract_value_by_path data rule.source_path with
  | .error e => .error e
  | .ok v0 =>
    let v1 := if v0 = Json.null then rule.default_value else v0
    let transformed : Except String Json :=
      match rule.transform with
      | some t => if v1 ≠ Json.null then runTransform t v1 else .ok v1
      | none => .ok v1
    match transformed with
    | .error e => .error e
    | .ok v2 =>
      if v2 ≠ Json.null then set_value_by_path result rule.target_path v2
      else .ok result

/-- One iteration of the rule loop of DataParser._apply_rules (parser.py
lines 431-449): its try/except swallows any exception and leaves the result
unchanged (set_value_by_path mutates nothing when it raises). -/
def applyOneRule (data result : Json) (rule : ParsingRule) : Json :=
  match applyOneRuleE data result rule with
  | .ok r => r
  | .error _ => result

/-- DataParser._is_array_data (parser.py lines 453-464): the first rule
whose source path contains an array indicator and resolves to a list makes
the data array data; the unguarded extraction can raise. -/
def is_array_data : Json → List ParsingRule → Except String Bool
  | _, [] => .ok false
  | data, rule :: rest =>
    if arrayIndicators.any (fun ind => containsSubstr rule.source_path ind) then
      match extract_value_by_path data rule.source_path with
      | .error e => .error e
      | .ok (.arr elems) =>
        let _ := elems
        .ok true
      | .ok _ => is_array_data data rest
    else is_array_data data rest

/-- First loop of DataParser._apply_rules_to_array (parser.py lines
474-479): scan for a rule whose source path is exactly an indicator name;
track the last extracted value (Python array_data keeps the last
assignment even when it is not a list) and the break target field. -/
def findArrayField : Json → List ParsingRule → Option Json →
    Except String (Option Json × Option String)
  | _, [], lastData => .ok (lastData, none)
  | data, rule :: rest, lastData =>
    if arrayIndicators.contains rule.source_path then
      match extract_value_by_path data rule.source_path with
      | .error e => .error e
      | .ok v =>
        match v with
        | .arr elems => .ok (some (.arr elems), some rule.target_path)
        | _ => findArrayField data rest (some v)
    else findArrayField data rest lastData

/-- Exception-channel body of the top-level rule loop of
DataParser._apply_rules_to_array (parser.py lines 487-492): no
default-value or required handling here, unlike _apply_rules. -/
def applyTopRuleE (data result : Json) (rule : ParsingRule) : Except String Json :=
  match extract_value_by_path data rule.source_path with
  | .error e => .error e
  | .ok v0 =>
    let transformed : Except String Json :=
      match rule.transform with
      | some t => if v0 ≠ Json.null then runTransform t v0 else .ok v0
      | none => .ok v0
    match transformed with
    | .error e => .error e
    | .ok v1 =>
      if v1 ≠ Json.null then set_value_by_path result rule.target_path v1
      else .ok result

/-- One iteration of the top-level rule loop of
DataParser._apply_rules_to_array (parser.py lines 485-494), whose
try/except-pass swallows any exception. -/
def applyTopRule (data result : Json) (rule : ParsingRule) : Json :=
  match applyTopRuleE data result rule with
  | .ok r => r
  | .error _ => result

/-- Item loop of DataParser._apply_rules_to_array (parser.py lines
497-503) over a given per-item normalizer: falsy (empty) processed items
are dropped. -/
def processItemsWith (f : Json → Except String Json) : List Json → Except String (List Json)
  | [] => .ok []
  | item :: rest =>
    match f item with
    | .error e => .error e
    | .ok processedItem =>
      match processItemsWith f rest with
      | .error e => .error e
      | .ok restP => .ok (if pyTruthy processedItem then processedItem :: restP else restP)

/-- DataParser._apply_rules and DataParser._apply_rules_to_array (parser.py
lines 422-451 and 466-508), which call each other, folded into one
fuel-indexed function so that recursion is structural on the fuel (the
kernel can then evaluate concrete runs): toArray false is _apply_rules,
toArray true is _apply_rules_to_array.  The fuel stands for the Python
recursion limit — the two functions genuinely re-enter each other on
identical arguments (an array-indicator rule whose exact name never
matches, or a falsy array value), and the interpreter then raises
RecursionError, an ordinary exception on this channel; every nested call
consumes one unit, as every Python call consumes stack. -/
def applyRulesFueled : Nat → Bool → Json → List ParsingRule → Except String Json
  | 0, _, _, _ => .error "RecursionError: maximum recursion depth exceeded"
  | fuel + 1, false, data, rules =>
    match is_array_data data rules with
    | .error e => .error e
    | .ok true => applyRulesFueled fuel true data rules
    | .ok false =>
      .ok (rules.foldl (fun result rule => applyOneRule data result rule) (Json.obj []))
  | fuel + 1, true, data, rules =>
    match findArrayField data rules none with
    | .error e => .error e
    | .ok (arrayData, arrayField) =>
      let truthy :=
        match arrayData with
        | none => false
        | some v => pyTruthy v
      if !truthy then applyRulesFueled fuel false data rules
      else
        let result0 := rules.foldl (fun result rule =>
          if arrayIndicators.any (fun ind => containsSubstr rule.source_path ind) then result
          else applyTopRule data result rule) (Json.obj [])
        let itemRules := rules.filter (fun rule => !arrayIndicators.contains rule.source_path)
        match pyIterate (arrayData.getD Json.null) with
        | .error e => .error e
        | .ok items =>
          match processItemsWith (fun item => applyRulesFueled fuel false item itemRules) items with
          | .error e => .error e
          | .ok processed =>
            match arrayField with
            | some f =>
              if f ≠ "" then set_value_by_path result0 f (Json.arr processed)
              else .ok result0
            | none => .ok result0

/-- DataParser._apply_rules (parser.py lines 422-451). -/
def apply_rules (fuel : Nat) (data : Json) (rules : List ParsingRule) :
    Except String Json :=
  applyRulesFueled fuel false data rules

mutual

/-- extract_structure closure of DataParser._calculate_structure_hash
(parser.py lines 591-597): dicts recurse per key, lists are replaced by the
type names of their first three items, scalars by their type name. -/
def extractStructure : Json → Json
  | .obj fields => .obj (extractStructureFields fields)
  | .arr elems => .arr ((elems.take 3).map (fun e => Json.str (pyTypeName e)))
  | other => .str (pyTypeName other)

def extractStructureFields : List (String × Json) → List (String × Json)
  | [] => []
  | (k, v) :: rest => (k, extractStructure v) :: extractStructureFields rest

end

/-- DataParser._calculate_structure_hash (parser.py lines 587-601); the md5
hexdigest is abstracted to the sorted structure string it digests. -/
def calculate_structure_hash (data : Json) : String :=
  dumpsSorted (extractStructure data)

/-- Python interpreter recursion limit standing behind the fuel of
apply_rules (sys.setrecursionlimit default). -/
def recursionLimit : Nat := 1000

/-- Drift threshold of CacheManager.update_schema_fingerprint and
DataParser._apply_adaptive_parsing (cache.py line 367, parser.py line 349).
The Python float literal 0.1 compares to the exact rational score as 1/10
does: with the small integer numerators and denominators the score takes,
double rounding cannot cross the strict comparison. -/
def driftThreshold : Rat := 1 / 10

/-- DataParser._apply_adaptive_parsing (parser.py lines 338-355), with the
stored fingerprint for (source, domain) passed explicitly in place of the
cache read; CacheManager.update_schema_fingerprint builds the fresh
fingerprint from the payload and diffs it against the stored one (its
persistence of the new fingerprint is a cache write that no claim
observes). -/
def apply_adaptive_parsing (storedFp : Option SchemaFingerprint) (raw : Json)
    (rules : List ParsingRule) (domain source_name : String) : Except String Json :=
  let effectiveRules :=
    match storedFp with
    | none => rules
    | some oldFp =>
      let newFp := create_schema_fingerprint raw source_name domain 0
      let changes := SchemaCache.compare_fingerprints oldFp newFp
      if changes.structural_change_score > driftThreshold then
        adapt_rules_for_schema_changes rules changes raw
      else rules
  apply_rules recursionLimit raw effectiveRules

/-- The _source_info metadata object attached by parse_data (parser.py
lines 306-311); parsed_at is the caller-supplied wall-clock ISO string. -/
def sourceInfoObj (source_name domain nowIso : String) (raw : Json) : Json :=
  Json.obj
    [("source_name", .str source_name),
     ("domain", .str domain),
     ("parsed_at", .str nowIso),
     ("original_structure_hash", .str (calculate_structure_hash raw))]

/-- Body of DataParser.parse_data inside its try block (parser.py lines
295-313): rule lookup (a missing or empty rule set returns the raw payload
as a non-error), adaptive parsing, then the _source_info dict assignment,
which raises if the normalized value is not a dict. -/
def parse_data_core (nowIso : String) (storedFp : Option SchemaFingerprint)
    (raw : Json) (domain source_name : String) : Except String Json :=
  match get_parsing_rules domain source_name with
  | none => .ok raw
  | some rules =>
    if rules.isEmpty then .ok raw
    else
      match apply_adaptive_parsing storedFp raw rules domain source_name with
      | .error e => .error e
      | .ok normalized =>
        match normalized with
        | .obj fields =>
          .ok (.obj (updateAssoc fields "_source_info" (sourceInfoObj source_name domain nowIso raw)))
        | _ => .error "TypeError: item assignment on non-dict"

/-- DataParser.parse_data (parser.py lines 293-318): the enclosing
try/except returns the raw payload unchanged on any error. -/
def parse_data (nowIso : String) (storedFp : Option SchemaFingerprint)
    (raw : Json) (domain source_name : String) : Json :=
  match parse_data_core nowIso storedFp raw domain source_name with
  | .ok v => v
  | .error _ => raw

/-! ## Adaptive poller (src/backend2/poller.py) -/

/-- PollResult dataclass (poller.py lines 32-45). -/
structure PollResult where
  success : Bool
  data : Option Json := none
  source_name : String := ""
  endpoint_url : String := ""
  http_status : Int := 0
  cached : Bool := false
  error_message : String := ""
  poll_duration_ms : Int := 0
  next_poll_interval : Int := 60
  etag : Option String := none
  last_modified : Option String := none
  deriving DecidableEq, Repr

/-- DomainState dataclass (poller.py lines 48-60). -/
structure DomainState where
  domain : String
  last_poll_time : Int := 0
  last_successful_poll : Int := 0
  current_interval : Int := 60
  consecutive_failures : Nat := 0
  active_source_index : Nat := 0
  cached_data : Option Json := none
  game_state : String := "UNKNOWN"
  is_live_game : Bool := false
  intermission : Bool := false
  deriving DecidableEq, Repr

/-- AdaptivePoller._check_rate_limit (poller.py lines 406-434) for one
source: prune timestamps older than the rolling 60-second window, refuse
when the pruned count has reached the configured per-minute limit (none
models a source absent from the configuration, which is never limited),
otherwise record the request.  Returns (allowed, updated timestamp list). -/
def check_rate_limit (now : Int) (times : List Int) (limit : Option Nat) :
    Bool × List Int :=
  let recent := times.filter (fun t => now - t < 60)
  match limit with
  | some l =>
    if recent.length ≥ l then (false, recent) else (true, recent ++ [now])
  | none => (true, recent ++ [now])

/-- The failed PollResult produced by the rate-limit gate of
AdaptivePoller._poll_endpoint (poller.py lines 238-243). -/
def pollEndpointRateLimited (sourceName : String) : PollResult :=
  { success := false, error_message := "Rate limit exceeded", source_name := sourceName }

/-- AdaptivePoller._poll_endpoint entry gate (poller.py lines 233-243): an
endpoint whose source is over its rate limit is answered by the failed
rate-limited PollResult without fetching; otherwise the fetch proceeds and
yields whatever PollResult the network path produces. -/
def pollEndpointGate (rateAllowed : Bool) (sourceName : String)
    (fetched : PollResult) : PollResult :=
  if !rateAllowed then pollEndpointRateLimited sourceName else fetched

/-- Endpoint walk of AdaptivePoller._poll_domain (poller.py lines 189-203):
the first endpoint at or after the active source index whose PollResult
reports success, if any.  Endpoints before the index are skipped by the
`attempt < state.active_source_index` continue; an exception from
_poll_endpoint is logged and behaves as a failure, so the per-endpoint
results list already carries failures for raising endpoints. -/
def firstSuccessFrom (idx : Nat) (results : List PollResult) :
    Option (Nat × PollResult) :=
  results.enum.find? (fun p => idx ≤ p.1 && p.2.success)

/-- Outcome classification of one _poll_domain cycle. -/
inductive PollOutcome where
  | noEndpoints
  | fresh (r : PollResult)
  | stale
  | hardFail
  deriving DecidableEq, Repr

/-- AdaptivePoller._poll_domain (poller.py lines 176-231) as a state
transformer: given the domain state and the PollResults the endpoints
would produce this cycle (one per endpoint of the domain, in priority
order), returns the updated state and the cycle outcome.  A success resets
the active source index to 0 and the consecutive-failure count to 0; a
cycle with no success increments the failure count and advances the index
by one when the count has reached 3 and a lower-priority endpoint exists;
the cached-data fallback changes no further state. -/
def poll_domain (st : DomainState) (results : List PollResult) :
    DomainState × PollOutcome :=
  if results.isEmpty then (st, .noEndpoints)
  else
    match firstSuccessFrom st.active_source_index results with
    | some (_, r) =>
      ({ st with active_source_index := 0, consecutive_failures := 0 }, .fresh r)
    | none =>
      let failures := st.consecutive_failures + 1
      let idx :=
        if failures ≥ 3 ∧ st.active_source_index < results.length - 1 then
          st.active_source_index + 1
        else st.active_source_index
      let st2 := { st with consecutive_failures := failures, active_source_index := idx }
      if st2.cached_data.isSome then (st2, .stale) else (st2, .hardFail)

/-- PollingConfig dataclass defaults (config.py lines 23-34). -/
structure PollingConfig where
  live_game_fast : Int := 3
  live_game_slow : Int := 20
  pregame : Int := 60
  postgame : Int := 300
  player_stats : Int := 900
  standings : Int := 1800
  schedule : Int := 3600
  offline : Int := 14400
  deriving DecidableEq, Repr

/-- AdaptivePoller._update_game_state (poller.py lines 469-501) as a state
transformer with an exception channel (its .get attribute accesses raise
AttributeError on non-dict values, and a non-iterable games value raises
TypeError; _update_domain_state has no handler, so the exception aborts the
rest of the update, leaving the mutations made so far in place — the
returned state is the state as mutated when the exception fired).  The
clock's inIntermission value is truth-tested downstream, so the state field
stores its truthiness. -/
def update_game_state (st : DomainState) (data : Json) : DomainState × Option String :=
  match pyDictGet data "games" (.arr []) with
  | .error e => (st, some e)
  | .ok games =>
    if !pyTruthy games then
      ({ st with is_live_game := false, game_state := "NO_GAMES" }, none)
    else
      match pyIterate games with
      | .error e => (st, some e)
      | .ok items =>
        match items.mapM (fun g =>
            (pyDictGet g "gameState" Json.null).map (fun s => (g, s))) with
        | .error e => (st, some e)
        | .ok stated =>
          let liveGames := stated.filter (fun gs =>
            gs.2 = Json.str "LIVE" || gs.2 = Json.str "CRIT")
          match liveGames with
          | g :: _ =>
            let st1 := { st with is_live_game := true, game_state := "LIVE" }
            match pyDictGet g.1 "clock" (.obj []) with
            | .error e => (st1, some e)
            | .ok clockInfo =>
              match pyDictGet clockInfo "inIntermission" (.bool false) with
              | .error e => (st1, some e)
              | .ok inter => ({ st1 with intermission := pyTruthy inter }, none)
          | [] =>
            let upcoming := stated.filter (fun gs =>
              gs.2 = Json.str "FUT" || gs.2 = Json.str "PRE")
            if !upcoming.isEmpty then
              ({ st with is_live_game := false, game_state := "SCHEDULED" }, none)
            else
              let finals := stated.filter (fun gs =>
                gs.2 = Json.str "FINAL" || gs.2 = Json.str "OFF")
              if !finals.isEmpty then
                ({ st with is_live_game := false, game_state := "FINAL" }, none)
              else
                ({ st with is_live_game := false, game_state := "OFF_DAY" }, none)

/-- AdaptivePoller._calculate_adaptive_interval (poller.py lines 503-534). -/
def calculate_adaptive_interval (domain : String) (st : DomainState)
    (cfg : PollingConfig) : Int :=
  if domain = "live_game" then
    if st.is_live_game then
      if st.intermission then cfg.live_game_slow else cfg.live_game_fast
    else if st.game_state = "SCHEDULED" then cfg.pregame
    else if st.game_state = "FINAL" then cfg.postgame
    else cfg.offline
  else if domain = "standings" then cfg.standings
  else if domain = "team_info" then max cfg.standings 3600
  else if domain = "schedule" then cfg.schedule
  else if domain = "player_stats" then cfg.player_stats
  else 300

/-- AdaptivePoller._update_domain_state (poller.py lines 448-467) at
wall-clock time now: stamps the poll time, records a successful result's
time, caches truthy fresh data (Python tests poll_result.data by
truthiness, so an empty dict is not cached), derives the game state for the
live_game domain, and recomputes the adaptive interval.  An exception from
_update_game_state propagates (there is no handler), so the interval update
is skipped and the partially mutated state is what the loop keeps. -/
def update_domain_state (now : Int) (cfg : PollingConfig) (st : DomainState)
    (pr : PollResult) : DomainState × Option String :=
  let st1 := { st with last_poll_time := now }
  let step :=
    if pr.success then
      let st2a := { st1 with last_successful_poll := now }
      match pr.data with
      | some d =>
        if pyTruthy d && !pr.cached then
          let st2b := { st2a with cached_data := some d }
          if st2b.domain = "live_game" then update_game_state st2b d else (st2b, none)
        else (st2a, none)
      | none => (st2a, none)
    else (st1, none)
  let st2 := step.1
  match step.2 with
  | some e => (st2, some e)
  | none =>
    ({ st2 with current_interval := calculate_adaptive_interval st2.domain st2 cfg }, none)

/-- Freshly constructed DomainState for a domain (poller.py lines 74-76). -/
def initialDomainState (domain : String) : DomainState :=
  { domain := domain }

/-- States a domain polling loop can reach (poller.py _poll_domain_loop,
lines 144-174): the initial state, followed by any interleaving of
_poll_domain cycles over the domain's fixed endpoint list (one PollResult
per endpoint) and _update_domain_state bookkeeping. -/
inductive ReachableDomainState (n : Nat) : DomainState → Prop where
  | init (domain : String) : ReachableDomainState n (initialDomainState domain)
  | poll (results : List PollResult) (st : DomainState)
      (hlen : results.length = n) (h : ReachableDomainState n st) :
      ReachableDomainState n (poll_domain st results).1
  | update (now : Int) (cfg : PollingConfig) (pr : PollResult) (st : DomainState)
      (h : ReachableDomainState n st) :
      ReachableDomainState n (update_domain_state now cfg st pr).1

/-! ## Helper lemmas -/

theorem lookup_updateAssoc_self {α : Type} (l : List (String × α)) (k : String) (v : α) :
    (updateAssoc l k v).lookup k = some v := by
  induction l with
  | nil => simp [updateAssoc, List.lookup]
  | cons hd tl ih =>
    obtain ⟨k1, v1⟩ := hd
    by_cases h : k1 = k
    · subst h
      simp [updateAssoc, List.lookup]
    · have hne : (k == k1) = false := by
        simp [beq_iff_eq]
        exact fun he => h he.symm
      simp [updateAssoc, h, List.lookup, hne, ih]

/-! ## Claim C4: cache round-trip -/

/-- Claim C4: for every key, payload, TTL t greater than 0 and conditional
metadata, JSONCache.set followed immediately by JSONCache.get returns an
entry whose data, etag and last-modified equal the values given to set, and
the entry is not treated as expired (the get leaves the cache unchanged
rather than deleting the entry). -/
theorem cache_set_get_roundtrip (c : JSONCache) (now : Int) (key : String)
    (data : Json) (ttl : Int) (etag last_modified source_url : Option String)
    (httl : 0 < ttl) :
    ∃ e, ((c.set now key data ttl etag last_modified source_url).2.get now key).1 = some e ∧
      e.data = data ∧ e.etag = etag ∧ e.last_modified = last_modified ∧
      ((c.set now key data ttl etag last_modified source_url).2.get now key).2 =
        (c.set now key data ttl etag last_modified source_url).2 := by
  have hexp : ¬ (now > now + ttl) := by omega
  refine ⟨{ key := key, data := data, timestamp := now, ttl_seconds := ttl,
            etag := etag, last_modified := last_modified, source_url := source_url,
            content_hash := some (contentHashOf data) }, ?_, rfl, rfl, rfl, ?_⟩
  · simp [JSONCache.get, JSONCache.set, lookup_updateAssoc_self, hexp]
  · simp [JSONCache.get, JSONCache.set, lookup_updateAssoc_self, hexp]

/-- Witness for claim C4 at a concrete input. -/
theorem cache_set_get_roundtrip_witness :
    ∃ e, ((((JSONCache.mk [] []).set 1000 "poll:espn:standings:u" (Json.num 7) 30
            (some "etag1") (some "lm1") none).2.get 1000 "poll:espn:standings:u").1) = some e ∧
      e.data = Json.num 7 ∧ e.etag = some "etag1" ∧ e.last_modified = some "lm1" ∧
      (((JSONCache.mk [] []).set 1000 "poll:espn:standings:u" (Json.num 7) 30
            (some "etag1") (some "lm1") none).2.get 1000 "poll:espn:standings:u").2 =
        ((JSONCache.mk [] []).set 1000 "poll:espn:standings:u" (Json.num 7) 30
            (some "etag1") (some "lm1") none).2 :=
  cache_set_get_roundtrip (JSONCache.mk [] []) 1000 "poll:espn:standings:u"
    (Json.num 7) 30 (some "etag1") (some "lm1") none (by omega)

/-! ## Claim C8: key-path extraction caps -/

/-- Claim C8 (amended): the expected-key extraction used by Discovery never
produces more than 50 key paths, for every input payload, because of its
final take-50 truncation.  The fingerprint extraction of
create_schema_fingerprint carries no such cap (see the counterexample). -/
theorem extract_expected_keys_le_50 (data : Json) (domain : String) :
    (extract_expected_keys data domain).length ≤ 50 := by
  unfold extract_expected_keys
  simp only []
  exact List.length_take_le 50 (extractKeysGo data "" [])

/-- A payload with 51 scalar keys at top level. -/
def bigPayload : Json :=
  Json.obj ((List.range 51).map (fun i => ("k" ++ toString i, Json.num 0)))

/-- Counterexample to claim C8 as stated: the fingerprint key-path
extraction of create_schema_fingerprint produces 51 key paths on a 51-key
payload, exceeding the claimed 50-path cap, while the Discovery extraction
of the same payload stays at 50. -/
theorem create_schema_fingerprint_uncapped :
    (create_schema_fingerprint bigPayload "nhl_official" "live_game" 0).key_paths.length = 51 ∧
    ¬ ((create_schema_fingerprint bigPayload "nhl_official" "live_game" 0).key_paths.length ≤ 50) ∧
    (extract_expected_keys bigPayload "live_game").length = 50 := by
  refine ⟨by decide, by decide, by decide⟩

/-! ## Claim C6: parse_data degrades to the raw payload -/

/-- Claim C6: for every raw payload, stored fingerprint state, domain and
source name, parse_data never raises (it is total into Json); whenever the
normalization body parse_data_core raises (an error on its exception
channel), the enclosing handler returns the original raw payload
unchanged. -/
theorem parse_data_returns_raw_on_error (nowIso : String)
    (storedFp : Option SchemaFingerprint) (raw : Json) (domain source_name : String)
    (h : ∃ e, parse_data_core nowIso storedFp raw domain source_name = Except.error e) :
    parse_data nowIso storedFp raw domain source_name = raw := by
  obtain ⟨e, he⟩ := h
  unfold parse_data
  rw [he]

/-- Witness for claim C6: a standings payload that is a bare number makes
_is_array_data subscript-test an int (TypeError), an error that reaches
parse_data's handler, which returns the raw payload. -/
theorem parse_data_returns_raw_on_error_witness :
    parse_data "2024-01-01T00:00:00+00:00" none (Json.num 5) "standings" "espn" = Json.num 5 :=
  parse_data_returns_raw_on_error "2024-01-01T00:00:00+00:00" none (Json.num 5)
    "standings" "espn"
    ⟨"TypeError: argument of type int is not iterable", by decide⟩

/-! ## Claim C9: path resolution safety -/

/-- Counterexample to claim C9 as stated: resolving the path a[0].b[0]
against the payload (obj a := [5]) raises a TypeError (the bracketed
segment b[0] runs the membership test b in 5), instead of returning the
addressed value or None. -/
theorem extract_value_by_path_raises :
    extract_value_by_path (Json.obj [("a", Json.arr [Json.num 5])]) "a[0].b[0]" =
      Except.error "TypeError: argument of type int is not iterable" := by
  decide

/-- The loop of _extract_value_by_path never raises while it only meets
bracket-free segments. -/
theorem extractGo_ok_of_no_bracket (parts : List String) (current : Json)
    (h : ∀ part ∈ parts, isBracketPart part = false) :
    ∃ v, extractGo current parts = Except.ok v := by
  induction parts generalizing current with
  | nil => exact ⟨current, rfl⟩
  | cons part rest ih =>
    have hpart : isBracketPart part = false := h part (List.mem_cons_self part rest)
    have hrest : ∀ p ∈ rest, isBracketPart p = false :=
      fun p hp => h p (List.mem_cons_of_mem part hp)
    by_cases hnull : current = Json.null
    · exact ⟨Json.null, by simp [extractGo, hnull]⟩
    · cases hcur : current with
      | obj fields =>
        cases hlk : fields.lookup part with
        | some v =>
          obtain ⟨w, hw⟩ := ih v hrest
          exact ⟨w, by simp [extractGo, hcur ▸ hnull, hpart, hlk, hw]⟩
        | none =>
          exact ⟨Json.null, by simp [extractGo, hcur ▸ hnull, hpart, hlk]⟩
      | null => exact absurd hcur hnull
      | bool b => exact ⟨Json.null, by simp [extractGo, hcur ▸ hnull, hpart]⟩
      | num n => exact ⟨Json.null, by simp [extractGo, hcur ▸ hnull, hpart]⟩
      | str s => exact ⟨Json.null, by simp [extractGo, hcur ▸ hnull, hpart]⟩
      | arr elems => exact ⟨Json.null, by simp [extractGo, hcur ▸ hnull, hpart]⟩

/-- Claim C9 (amended): for every payload and every purely dotted path (no
segment with both brackets), _extract_value_by_path returns a value or None
without raising: missing keys, non-dict intermediates, and null
intermediates all answer None.  Bracketed segments, by contrast, can raise
TypeError on a non-container intermediate (see the counterexample). -/
theorem extract_value_by_path_total_on_dot_paths (data : Json) (path : String)
    (h : ∀ part ∈ pySplitChar path '.', isBracketPart part = false) :
    ∃ v, extract_value_by_path data path = Except.ok v := by
  unfold extract_value_by_path
  by_cases htop : path = "" || data = Json.null
  · exact ⟨data, by simp [htop]⟩
  · have := extractGo_ok_of_no_bracket (pySplitChar path '.') data h
    simpa [htop] using this

/-- Witness for amended claim C9 at a concrete payload and dotted path. -/
theorem extract_value_by_path_total_on_dot_paths_witness :
    ∃ v, extract_value_by_path
      (Json.obj [("awayTeam", Json.obj [("abbrev", Json.str "TOR")])])
      "awayTeam.abbrev" = Except.ok v :=
  extract_value_by_path_total_on_dot_paths
    (Json.obj [("awayTeam", Json.obj [("abbrev", Json.str "TOR")])])
    "awayTeam.abbrev" (by decide)

/-! ## Claim C1: poll-cycle success reset and failure fallback -/

theorem poll_domain_some_case (st : DomainState) (results : List PollResult)
    (i : Nat) (r : PollResult) (hne' : results.isEmpty = false)
    (hfs : firstSuccessFrom st.active_source_index results = some (i, r)) :
    poll_domain st results =
      ({ st with active_source_index := 0, consecutive_failures := 0 }, .fresh r) := by
  unfold poll_domain
  rw [hne', hfs]
  simp

theorem poll_domain_none_case (st : DomainState) (results : List PollResult)
    (hne' : results.isEmpty = false)
    (hfs : firstSuccessFrom st.active_source_index results = none) :
    (poll_domain st results).1 =
      { st with
        consecutive_failures := st.consecutive_failures + 1
        active_source_index :=
          if st.consecutive_failures + 1 ≥ 3 ∧ st.active_source_index < results.length - 1
          then st.active_source_index + 1 else st.active_source_index } := by
  unfold poll_domain
  rw [hne', hfs]
  simp only [Bool.false_eq_true, if_false]
  split <;> rfl

/-- Claim C1: in one _poll_domain cycle over a non-empty endpoint list, a
successful fetch from any polled endpoint resets the active source index to
0 and the consecutive-failure count to 0; a cycle in which every polled
endpoint failed increments the consecutive-failure count by one, and
advances the active source index by exactly 1 when the count has thereby
reached 3 or more and a lower-priority endpoint exists, leaving it
unchanged otherwise. -/
theorem poll_domain_failover_spec (st : DomainState) (results : List PollResult)
    (hne : results ≠ []) :
    (∀ i r, firstSuccessFrom st.active_source_index results = some (i, r) →
      (poll_domain st results).1.active_source_index = 0 ∧
      (poll_domain st results).1.consecutive_failures = 0) ∧
    (firstSuccessFrom st.active_source_index results = none →
      (poll_domain st results).1.consecutive_failures = st.consecutive_failures + 1 ∧
      (st.consecutive_failures + 1 ≥ 3 ∧ st.active_source_index < results.length - 1 →
        (poll_domain st results).1.active_source_index = st.active_source_index + 1) ∧
      (¬ (st.consecutive_failures + 1 ≥ 3 ∧ st.active_source_index < results.length - 1) →
        (poll_domain st results).1.active_source_index = st.active_source_index)) := by
  have hne' : results.isEmpty = false := by
    cases results with
    | nil => exact absurd rfl hne
    | cons a l => rfl
  refine ⟨?_, ?_⟩
  · intro i r hfs
    rw [poll_domain_some_case st results i r hne' hfs]
    exact ⟨rfl, rfl⟩
  · intro hfs
    rw [poll_domain_none_case st results hne' hfs]
    refine ⟨rfl, ?_, ?_⟩
    · intro hcond
      simp only [if_pos hcond]
    · intro hcond
      simp only [if_neg hcond]

/-- A degraded concrete domain state for the claim C1 witness. -/
def degradedState : DomainState :=
  { initialDomainState "live_game" with active_source_index := 1, consecutive_failures := 4 }

theorem poll_domain_failover_spec_witness :
    (poll_domain degradedState [{ success := false }, { success := true }]).1.active_source_index = 0 ∧
    (poll_domain degradedState [{ success := false }, { success := true }]).1.consecutive_failures = 0 :=
  (poll_domain_failover_spec degradedState
    [{ success := false }, { success := true }] (by simp)).1
    1 { success := true } (by decide)

/-! ## Claim C2: rate-limited endpoints and the failure threshold -/

/-- Counterexample to claim C2 as stated: with a source limited to 1
request per minute and one request 50 seconds old, the rate limiter
refuses; _poll_endpoint then answers the failed rate-limited PollResult
(even though the fetch itself would have succeeded), and a cycle in which
the only endpoint was rate-limited increments the domain's
consecutive-failure count from 0 to 1 — the skip does count toward the
failure threshold. -/
theorem rate_limit_counts_as_failure :
    (check_rate_limit 100 [50] (some 1)).1 = false ∧
    (pollEndpointGate false "espn" { success := true }) = pollEndpointRateLimited "espn" ∧
    (pollEndpointRateLimited "espn").success = false ∧
    (pollEndpointRateLimited "espn").error_message = "Rate limit exceeded" ∧
    (initialDomainState "live_game").consecutive_failures = 0 ∧
    (poll_domain (initialDomainState "live_game")
      [pollEndpointRateLimited "espn"]).1.consecutive_failures = 1 := by
  refine ⟨by decide, by decide, by decide, by decide, by decide, by decide⟩

theorem snd_mem_of_mem_enumFrom {α : Type} (l : List α) (n : Nat) (p : Nat × α)
    (hp : p ∈ l.enumFrom n) : p.2 ∈ l := by
  induction l generalizing n with
  | nil => simp [List.enumFrom] at hp
  | cons a t ih =>
    simp only [List.enumFrom, List.mem_cons] at hp
    rcases hp with h | h
    · rw [h]
      exact List.mem_cons_self a t
    · exact List.mem_cons_of_mem a (ih (n + 1) h)

theorem firstSuccessFrom_eq_none_of_all_failed (idx : Nat) (results : List PollResult)
    (h : ∀ r ∈ results, r.success = false) :
    firstSuccessFrom idx results = none := by
  unfold firstSuccessFrom
  apply List.find?_eq_none.mpr
  intro p hp
  have hmem : p.2 ∈ results := snd_mem_of_mem_enumFrom results 0 p hp
  simp [h p.2 hmem]

/-- Claim C2 (amended): an endpoint whose source is over its rolling
60-second per-minute limit is skipped for the cycle through the failed
rate-limited PollResult, and such skips DO count toward the domain failure
threshold: a cycle in which every polled endpoint was rate-limited
increments the domain's consecutive-failure count by exactly one, the same
as any other all-failed cycle.  The rate limiter refuses whenever the
requests still inside the window have reached the limit. -/
theorem rate_limited_cycle_increments_failures (st : DomainState)
    (results : List PollResult) (hne : results ≠ [])
    (hrl : ∀ r ∈ results, ∃ name, r = pollEndpointRateLimited name) :
    (poll_domain st results).1.consecutive_failures = st.consecutive_failures + 1 ∧
    ∀ now : Int, ∀ times : List Int, ∀ limit : Nat,
      limit ≤ (times.filter (fun t => now - t < 60)).length →
      (check_rate_limit now times (some limit)).1 = false := by
  constructor
  · have hne' : results.isEmpty = false := by
      cases results with
      | nil => exact absurd rfl hne
      | cons a l => rfl
    have hall : ∀ r ∈ results, r.success = false := by
      intro r hr
      obtain ⟨name, hname⟩ := hrl r hr
      rw [hname]
      rfl
    rw [poll_domain_none_case st results hne'
      (firstSuccessFrom_eq_none_of_all_failed st.active_source_index results hall)]
  · intro now times limit hlim
    simp only [check_rate_limit]
    rw [if_pos hlim]

/-- Witness for amended claim C2 at a concrete all-rate-limited cycle and a
concrete over-limit rate check. -/
theorem rate_limited_cycle_increments_failures_witness :
    (poll_domain (initialDomainState "standings")
      [pollEndpointRateLimited "espn"]).1.consecutive_failures =
      (initialDomainState "standings").consecutive_failures + 1 ∧
    (check_rate_limit 200 [170, 180] (some 2)).1 = false :=
  ⟨(rate_limited_cycle_increments_failures (initialDomainState "standings")
      [pollEndpointRateLimited "espn"] (by simp)
      (fun r hr => ⟨"espn", by simpa using hr⟩)).1,
   (rate_limited_cycle_increments_failures (initialDomainState "standings")
      [pollEndpointRateLimited "espn"] (by simp)
      (fun r hr => ⟨"espn", by simpa using hr⟩)).2 200 [170, 180] 2 (by decide)⟩

/-! ## Claim C7: the active source index stays in range -/

theorem update_game_state_index (st : DomainState) (d : Json) :
    (update_game_state st d).1.active_source_index = st.active_source_index := by
  unfold update_game_state
  dsimp only
  repeat' split
  all_goals rfl

theorem update_domain_state_index (now : Int) (cfg : PollingConfig)
    (st : DomainState) (pr : PollResult) :
    (update_domain_state now cfg st pr).1.active_source_index = st.active_source_index := by
  unfold update_domain_state
  dsimp only
  split <;>
    (repeat' split) <;>
    simp [update_game_state_index]

theorem firstSuccessFrom_isSome_of_some (idx : Nat) (results : List PollResult)
    (i : Nat) (r : PollResult)
    (h : firstSuccessFrom idx results = some (i, r)) : results ≠ [] := by
  intro hnil
  rw [hnil] at h
  simp [firstSuccessFrom, List.enum] at h

/-- Claim C7: in every state a domain polling loop can reach over a domain
with n endpoints, the active source index is a valid index into the
endpoint list (less than n), or 0 when the list is empty. -/
theorem active_source_index_valid (n : Nat) (st : DomainState)
    (h : ReachableDomainState n st) :
    st.active_source_index < n ∨ (n = 0 ∧ st.active_source_index = 0) := by
  induction h with
  | init domain =>
    cases n with
    | zero => exact Or.inr ⟨rfl, rfl⟩
    | succ m => exact Or.inl (Nat.succ_pos m)
  | poll results st hlen h ih =>
    by_cases hempty : results.isEmpty
    · have : poll_domain st results = (st, .noEndpoints) := by
        unfold poll_domain
        rw [hempty]
        simp
      rw [this]
      exact ih
    · have hne' : results.isEmpty = false := by
        cases hb : results.isEmpty with
        | true => exact absurd hb hempty
        | false => rfl
      have hpos : 0 < n := by
        rw [← hlen]
        cases results with
        | nil => simp at hne'
        | cons a l => simp
      cases hfs : firstSuccessFrom st.active_source_index results with
      | some p =>
        obtain ⟨i, r⟩ := p
        rw [poll_domain_some_case st results i r hne' hfs]
        exact Or.inl hpos
      | none =>
        rw [poll_domain_none_case st results hne' hfs]
        simp only []
        by_cases hcond : st.consecutive_failures + 1 ≥ 3 ∧
            st.active_source_index < results.length - 1
        · rw [if_pos hcond]
          left
          have := hcond.2
          omega
        · rw [if_neg hcond]
          exact ih
  | update now cfg pr st h ih =>
    rw [update_domain_state_index]
    exact ih

/-- Witness for claim C7 at a concrete reachable state: the state after one
all-failed cycle from the initial state of a 3-endpoint domain. -/
theorem active_source_index_valid_witness :
    (poll_domain (initialDomainState "live_game")
      [{ success := false }, { success := false }, { success := false }]).1.active_source_index < 3 ∨
    (3 = 0 ∧ (poll_domain (initialDomainState "live_game")
      [{ success := false }, { success := false }, { success := false }]).1.active_source_index = 0) :=
  active_source_index_valid 3 _
    (ReachableDomainState.poll
      [{ success := false }, { success := false }, { success := false }]
      (initialDomainState "live_game") rfl
      (ReachableDomainState.init "live_game"))

/-! ## Claim C3: the structural change score -/

theorem dedup_toFinset {α : Type} [DecidableEq α] (l : List α) :
    l.dedup.toFinset = l.toFinset :=
  List.toFinset.ext (fun _ => List.mem_dedup)

theorem length_filter_bool_partition {α : Type} (l : List α) (p : α → Bool) :
    (l.filter p).length + (l.filter (fun a => !(p a))).length = l.length := by
  induction l with
  | nil => rfl
  | cons a t ih => by_cases h : p a <;> simp [List.filter_cons, h] <;> omega

theorem filter_not_contains_toFinset (base other : List String) :
    (base.dedup.filter (fun k => !other.dedup.contains k)).toFinset =
      base.toFinset \ other.toFinset := by
  rw [List.toFinset_filter, dedup_toFinset, Finset.sdiff_eq_filter]
  apply Finset.filter_congr
  intro k _
  simp [List.mem_dedup]

theorem filter_not_contains_length (base other : List String) :
    (base.dedup.filter (fun k => !other.dedup.contains k)).length =
      (base.toFinset \ other.toFinset).card := by
  rw [← filter_not_contains_toFinset base other]
  exact (List.toFinset_card_of_nodup ((List.nodup_dedup base).filter _)).symm

/-- Claim C3: compare_fingerprints returns a structural change score equal
to the number of added, removed and type-changed key paths divided by the
size of the union of both fingerprints' key-path sets (with the 0/0 corner
scored 0), lying in the closed interval from 0 to 1; identical key-path
sets with identical type maps score 0, and a non-empty fingerprint diffed
against an empty one scores 1. -/
theorem compare_fingerprints_score_spec (old new : SchemaFingerprint) :
    (SchemaCache.compare_fingerprints old new).new_keys.length =
      (new.key_paths.toFinset \ old.key_paths.toFinset).card ∧
    (SchemaCache.compare_fingerprints old new).removed_keys.length =
      (old.key_paths.toFinset \ new.key_paths.toFinset).card ∧
    (SchemaCache.compare_fingerprints old new).structural_change_score =
      (((SchemaCache.compare_fingerprints old new).new_keys.length +
        (SchemaCache.compare_fingerprints old new).removed_keys.length +
        (SchemaCache.compare_fingerprints old new).type_changes.length : Nat) : Rat) /
        (((old.key_paths.toFinset ∪ new.key_paths.toFinset).card : Nat) : Rat) ∧
    0 ≤ (SchemaCache.compare_fingerprints old new).structural_change_score ∧
    (SchemaCache.compare_fingerprints old new).structural_change_score ≤ 1 ∧
    ((∀ k, k ∈ old.key_paths ↔ k ∈ new.key_paths) →
      (∀ k, old.type_signatures.lookup k = new.type_signatures.lookup k) →
      (SchemaCache.compare_fingerprints old new).structural_change_score = 0) ∧
    (new.key_paths = [] → old.key_paths ≠ [] →
      (SchemaCache.compare_fingerprints old new).structural_change_score = 1) := by
  have hnew : (SchemaCache.compare_fingerprints old new).new_keys =
      new.key_paths.dedup.filter (fun k => !old.key_paths.dedup.contains k) := rfl
  have hrem : (SchemaCache.compare_fingerprints old new).removed_keys =
      old.key_paths.dedup.filter (fun k => !new.key_paths.dedup.contains k) := rfl
  have htceq : (SchemaCache.compare_fingerprints old new).type_changes =
      ((old.key_paths.dedup.filter (fun k => new.key_paths.dedup.contains k)).filter
        (fun k => old.type_signatures.lookup k != new.type_signatures.lookup k)).map
        (fun k => (k, old.type_signatures.lookup k, new.type_signatures.lookup k)) := rfl
  have hscore : (SchemaCache.compare_fingerprints old new).structural_change_score =
      if ((old.key_paths.dedup ++
            new.key_paths.dedup.filter (fun k => !old.key_paths.dedup.contains k)).length > 0) then
        ((((SchemaCache.compare_fingerprints old new).new_keys.length +
           (SchemaCache.compare_fingerprints old new).removed_keys.length +
           (SchemaCache.compare_fingerprints old new).type_changes.length : Nat)) : Rat) /
          (((old.key_paths.dedup ++
             new.key_paths.dedup.filter (fun k => !old.key_paths.dedup.contains k)).length : Nat) : Rat)
      else 0 := rfl
  have hnewlen := filter_not_contains_length new.key_paths old.key_paths
  have hremlen := filter_not_contains_length old.key_paths new.key_paths
  have holdcard : old.key_paths.dedup.length = old.key_paths.toFinset.card := by
    rw [← dedup_toFinset old.key_paths]
    exact (List.toFinset_card_of_nodup (List.nodup_dedup _)).symm
  have hunion : (old.key_paths.toFinset ∪ new.key_paths.toFinset).card =
      old.key_paths.dedup.length +
        (new.key_paths.dedup.filter (fun k => !old.key_paths.dedup.contains k)).length := by
    rw [← Finset.union_sdiff_self_eq_union,
      Finset.card_union_of_disjoint Finset.disjoint_sdiff, holdcard, hnewlen]
  have htc : (SchemaCache.compare_fingerprints old new).type_changes.length ≤
      (old.key_paths.dedup.filter (fun k => new.key_paths.dedup.contains k)).length := by
    rw [htceq, List.length_map]
    exact List.length_filter_le _ _
  have hpart : (old.key_paths.dedup.filter (fun k => new.key_paths.dedup.contains k)).length +
      (old.key_paths.dedup.filter (fun k => !new.key_paths.dedup.contains k)).length =
      old.key_paths.dedup.length :=
    length_filter_bool_partition old.key_paths.dedup (fun k => new.key_paths.dedup.contains k)
  have htotal : (old.key_paths.dedup ++
      new.key_paths.dedup.filter (fun k => !old.key_paths.dedup.contains k)).length =
      (old.key_paths.toFinset ∪ new.key_paths.toFinset).card := by
    rw [List.length_append, hunion]
  have hchanged : (SchemaCache.compare_fingerprints old new).new_keys.length +
      (SchemaCache.compare_fingerprints old new).removed_keys.length +
      (SchemaCache.compare_fingerprints old new).type_changes.length ≤
      (old.key_paths.dedup ++
        new.key_paths.dedup.filter (fun k => !old.key_paths.dedup.contains k)).length := by
    rw [hnew, hrem, List.length_append]
    omega
  refine ⟨by rw [hnew]; exact hnewlen, by rw [hrem]; exact hremlen, ?_, ?_, ?_, ?_, ?_⟩
  · rw [hscore, htotal]
    by_cases hpos : 0 < (old.key_paths.toFinset ∪ new.key_paths.toFinset).card
    · rw [if_pos hpos]
    · rw [if_neg hpos]
      have hz : (old.key_paths.toFinset ∪ new.key_paths.toFinset).card = 0 := by omega
      rw [hz]
      simp
  · rw [hscore]
    split
    · positivity
    · exact le_refl 0
  · rw [hscore]
    split
    · rename_i hpos
      rw [div_le_one (by exact_mod_cast hpos)]
      exact_mod_cast hchanged
    · exact zero_le_one
  · intro hkeys htypes
    have hn0 : (SchemaCache.compare_fingerprints old new).new_keys.length = 0 := by
      rw [hnew]
      simp only [List.length_eq_zero]
      apply List.filter_eq_nil_iff.mpr
      intro k hk
      have : k ∈ old.key_paths := (hkeys k).mpr (List.mem_dedup.mp hk)
      simp [List.mem_dedup, this]
    have hr0 : (SchemaCache.compare_fingerprints old new).removed_keys.length = 0 := by
      rw [hrem]
      simp only [List.length_eq_zero]
      apply List.filter_eq_nil_iff.mpr
      intro k hk
      have : k ∈ new.key_paths := (hkeys k).mp (List.mem_dedup.mp hk)
      simp [List.mem_dedup, this]
    have ht0 : (SchemaCache.compare_fingerprints old new).type_changes.length = 0 := by
      rw [htceq]
      simp only [List.length_map, List.length_eq_zero]
      apply List.filter_eq_nil_iff.mpr
      intro k _
      simp [htypes k]
    rw [hscore, hn0, hr0, ht0]
    split <;> simp
  · intro hnewnil holdne
    have hK : new.key_paths.dedup = ([] : List String) := by rw [hnewnil]; rfl
    have hn0 : (SchemaCache.compare_fingerprints old new).new_keys.length = 0 := by
      rw [hnew, hK]
      rfl
    have hr0 : (SchemaCache.compare_fingerprints old new).removed_keys =
        old.key_paths.dedup := by
      rw [hrem, hK]
      apply List.filter_eq_self.mpr
      intro a _
      rfl
    have ht0 : (SchemaCache.compare_fingerprints old new).type_changes.length = 0 := by
      rw [htceq, hK]
      simp
    have holdKne : old.key_paths.dedup ≠ [] := by
      intro hd
      exact holdne ((List.dedup_eq_nil old.key_paths).mp hd)
    have hlenpos : 0 < old.key_paths.dedup.length := List.length_pos.mpr holdKne
    rw [hscore, hK]
    simp only [List.filter_nil, List.append_nil]
    rw [if_pos (by omega), hn0, hr0, ht0]
    simp only [Nat.zero_add, Nat.add_zero]
    rw [div_self (by positivity)]

/-- A concrete fingerprint for the claim C3 witness. -/
def witnessFingerprint : SchemaFingerprint :=
  { source_name := "nhl_official", domain := "live_game",
    key_paths := ["games", "games[0].id", "games[0].gameState"],
    type_signatures := [("games", "list"), ("games[0].id", "int"), ("games[0].gameState", "str")],
    sample_values := [], timestamp := 0, version_hash := "v" }

/-- Witness for claim C3: a fingerprint diffed against itself scores 0. -/
theorem compare_fingerprints_score_spec_witness :
    (SchemaCache.compare_fingerprints witnessFingerprint witnessFingerprint).structural_change_score = 0 :=
  (compare_fingerprints_score_spec witnessFingerprint witnessFingerprint).2.2.2.2.2.1
    (fun _ => Iff.rfl) (fun _ => rfl)

/-! ## Claim C5: drift adaptation of parsing rules -/

/-- Payload for the claim C5 counterexample: the key a was removed and a
key za ending in a exists. -/
def c5Data : Json := Json.obj [("za", Json.num 5)]

/-- A rule whose source path properly contains the removed key a. -/
def c5Rule : ParsingRule := mkRule "a.b" "homeTeam.score" none true Json.null

/-- Stored fingerprint whose only key path is the later-removed a. -/
def c5OldFingerprint : SchemaFingerprint :=
  { source_name := "nhl_official", domain := "live_game", key_paths := ["a"],
    type_signatures := [("a", "int")], sample_values := [], timestamp := 0,
    version_hash := "v0" }

/-- Counterexample to claim C5 as stated: with drift over the threshold and
removed key a, the rule with source path a.b is rewritten by substring
splicing to za.b, which is NOT a current key path of the payload (the
claimed rewrite to a matching current key path fails). -/
theorem adapt_rules_splices_counterexample :
    (SchemaCache.compare_fingerprints c5OldFingerprint
      (create_schema_fingerprint c5Data "nhl_official" "live_game" 0)).structural_change_score >
      driftThreshold ∧
    (SchemaCache.compare_fingerprints c5OldFingerprint
      (create_schema_fingerprint c5Data "nhl_official" "live_game" 0)).removed_keys = ["a"] ∧
    adapt_rules_for_schema_changes [c5Rule]
      (SchemaCache.compare_fingerprints c5OldFingerprint
        (create_schema_fingerprint c5Data "nhl_official" "live_game" 0)) c5Data =
      [mkRule "za.b" "homeTeam.score" none true Json.null] ∧
    ((extractAllKeyPaths c5Data "").contains "za.b") = false := by
  refine ⟨?_, by decide, by decide, by decide⟩
  have h : (SchemaCache.compare_fingerprints c5OldFingerprint
      (create_schema_fingerprint c5Data "nhl_official" "live_game" 0)).structural_change_score =
      ((2 : Nat) : Rat) / ((2 : Nat) : Rat) := rfl
  rw [h]
  norm_num [driftThreshold]

/-- Claim C5 (amended): the effect of one removed key on one rule during
drift adaptation.  A rule whose source path does not contain the removed
key is untouched.  When the current payload offers an alternative path
(first exact-suffix match on the removed key's terminal segment, then
case-insensitive substring match, both excluding the removed key itself),
the occurrence of the removed key inside the rule's source path is replaced
by that path — the result is the found path itself exactly when the source
path equals the removed key, and a spliced hybrid otherwise.  When no such
path exists, the rule becomes optional and, if it had no default yet,
receives the type-appropriate default of _get_default_for_target_path
(0 for score/sog/id targets, empty list for plays, false for intermission,
placeholder strings for name/state targets, checked in that order). -/
theorem adapt_rule_for_removed_key_spec (data : Json) (removedKey : String)
    (rule : ParsingRule) :
    (containsSubstr rule.source_path removedKey = false →
      adaptRuleForRemovedKey data removedKey rule = rule) ∧
    (∀ alt, containsSubstr rule.source_path removedKey = true →
      find_alternative_key_path removedKey data = some alt →
      alt ∈ extractAllKeyPaths data "" ∧
      (pyEndsWith alt (keyNameOf removedKey) = true ∨
        containsSubstr (pyToLower alt) (pyToLower (keyNameOf removedKey)) = true) ∧
      alt ≠ removedKey ∧
      (adaptRuleForRemovedKey data removedKey rule).source_path =
        pyReplace rule.source_path removedKey alt ∧
      (adaptRuleForRemovedKey data removedKey rule).required = rule.required ∧
      (adaptRuleForRemovedKey data removedKey rule).default_value = rule.default_value) ∧
    (containsSubstr rule.source_path removedKey = true →
      find_alternative_key_path removedKey data = none →
      (adaptRuleForRemovedKey data removedKey rule).required = false ∧
      (adaptRuleForRemovedKey data removedKey rule).default_value =
        (if rule.default_value = Json.null then get_default_for_target_path rule.target_path
         else rule.default_value) ∧
      (adaptRuleForRemovedKey data removedKey rule).source_path = rule.source_path) ∧
    get_default_for_target_path "awayTeam.score" = Json.num 0 ∧
    get_default_for_target_path "awayTeam.sog" = Json.num 0 ∧
    get_default_for_target_path "id" = Json.num 0 ∧
    get_default_for_target_path "plays" = Json.arr [] ∧
    get_default_for_target_path "clock.inIntermission" = Json.bool false ∧
    get_default_for_target_path "awayTeam.name.default" = Json.str "Unknown" ∧
    get_default_for_target_path "gameState" = Json.str "UNKNOWN" := by
  refine ⟨?_, ?_, ?_, by decide, by decide, by decide, by decide, by decide, by decide, by decide⟩
  · intro h
    simp [adaptRuleForRemovedKey, h]
  · intro alt hcontains hfind
    have halt : alt ∈ extractAllKeyPaths data "" ∧
        (pyEndsWith alt (keyNameOf removedKey) = true ∨
          containsSubstr (pyToLower alt) (pyToLower (keyNameOf removedKey)) = true) ∧
        alt ≠ removedKey := by
      simp only [find_alternative_key_path] at hfind
      cases h1 : (extractAllKeyPaths data "").find?
          (fun p => pyEndsWith p (keyNameOf removedKey) && p != removedKey) with
      | some p =>
        rw [h1] at hfind
        cases hfind
        have hpred := List.find?_some h1
        have hmem := List.mem_of_find?_eq_some h1
        rw [Bool.and_eq_true] at hpred
        exact ⟨hmem, Or.inl hpred.1, bne_iff_ne.mp hpred.2⟩
      | none =>
        rw [h1] at hfind
        have hpred := List.find?_some hfind
        have hmem := List.mem_of_find?_eq_some hfind
        rw [Bool.and_eq_true] at hpred
        exact ⟨hmem, Or.inr hpred.1, bne_iff_ne.mp hpred.2⟩
    refine ⟨halt.1, halt.2.1, halt.2.2, ?_, ?_, ?_⟩ <;>
      simp [adaptRuleForRemovedKey, hcontains, hfind]
  · intro hcontains hfind
    refine ⟨?_, ?_, ?_⟩ <;> simp [adaptRuleForRemovedKey, hcontains, hfind]

/-- Payload for the claim C5 witness: awayTeam.teamAbbrev is the surviving
path case-insensitively containing the removed terminal segment abbrev. -/
def c5WitnessData : Json :=
  Json.obj [("awayTeam", Json.obj [("teamAbbrev", Json.str "TOR")])]

/-- Rule for the claim C5 witness whose source path equals the removed
key. -/
def c5WitnessRule : ParsingRule :=
  mkRule "awayTeam.abbrev" "awayTeam.abbrev" none true Json.null

/-- Witness for amended claim C5: the removed key awayTeam.abbrev is
rewritten to the surviving path awayTeam.teamAbbrev. -/
theorem adapt_rule_for_removed_key_spec_witness :
    "awayTeam.teamAbbrev" ∈ extractAllKeyPaths c5WitnessData "" ∧
    (pyEndsWith "awayTeam.teamAbbrev" (keyNameOf "awayTeam.abbrev") = true ∨
      containsSubstr (pyToLower "awayTeam.teamAbbrev")
        (pyToLower (keyNameOf "awayTeam.abbrev")) = true) ∧
    "awayTeam.teamAbbrev" ≠ "awayTeam.abbrev" ∧
    (adaptRuleForRemovedKey c5WitnessData "awayTeam.abbrev" c5WitnessRule).source_path =
      pyReplace c5WitnessRule.source_path "awayTeam.abbrev" "awayTeam.teamAbbrev" ∧
    (adaptRuleForRemovedKey c5WitnessData "awayTeam.abbrev" c5WitnessRule).required =
      c5WitnessRule.required ∧
    (adaptRuleForRemovedKey c5WitnessData "awayTeam.abbrev" c5WitnessRule).default_value =
      c5WitnessRule.default_value :=
  (adapt_rule_for_removed_key_spec c5WitnessData "awayTeam.abbrev" c5WitnessRule).2.1
    "awayTeam.teamAbbrev" (by decide) (by decide)

/-! ## Claim C10: fuzzy rule lookup -/

/-- Counterexample to claim C10 as stated: the source espn2 has no exact
standings rule-set entry but overlaps the configured source espn, so the
espn rules ARE selected — yet parse_data still falls back to returning the
raw payload (here a bare number, on which normalization raises), so raw
fallback is not confined to the no-overlap case. -/
theorem parse_data_raw_despite_overlap :
    containsSubstr (pyToLower "espn2") (pyToLower "espn") = true ∧
    (parsing_rules.lookup "standings").map (fun dr => dr.lookup "espn2") = some none ∧
    get_parsing_rules "standings" "espn2" = some espn_standings_rules ∧
    parse_data "2024-01-01T00:00:00+00:00" none (Json.num 5) "standings" "espn2" =
      Json.num 5 := by
  refine ⟨by decide, by decide, by decide, by decide⟩

/-- Claim C10 (amended): rule lookup by source name is fuzzy.  For a domain
with a rule table, a source name with no exact entry receives the rules of
the first configured source whose lowercased name contains, or is contained
in, the lowercased requested name; when no such overlap exists,
_get_parsing_rules yields nothing and parse_data returns the raw payload
unchanged.  (With an overlap the matched rules are applied, but parse_data
can still return the raw payload when normalization raises — see the
counterexample.) -/
theorem get_parsing_rules_fuzzy_spec (domain source_name : String)
    (domainRules : List (String × List ParsingRule))
    (hdom : parsing_rules.lookup domain = some domainRules)
    (hnoexact : domainRules.lookup source_name = none) :
    ((∃ kv ∈ domainRules,
        (containsSubstr (pyToLower kv.1) (pyToLower source_name) ||
         containsSubstr (pyToLower source_name) (pyToLower kv.1)) = true) →
      ∃ kv ∈ domainRules,
        (containsSubstr (pyToLower kv.1) (pyToLower source_name) ||
         containsSubstr (pyToLower source_name) (pyToLower kv.1)) = true ∧
        get_parsing_rules domain source_name = some kv.2) ∧
    ((∀ kv ∈ domainRules,
        (containsSubstr (pyToLower kv.1) (pyToLower source_name) ||
         containsSubstr (pyToLower source_name) (pyToLower kv.1)) = false) →
      get_parsing_rules domain source_name = none ∧
      ∀ nowIso storedFp raw, parse_data nowIso storedFp raw domain source_name = raw) := by
  constructor
  · intro hex
    cases hfind : domainRules.find? (fun kv =>
        containsSubstr (pyToLower kv.1) (pyToLower source_name) ||
        containsSubstr (pyToLower source_name) (pyToLower kv.1)) with
    | none =>
      exfalso
      have hsome : ((domainRules.find? (fun kv =>
          containsSubstr (pyToLower kv.1) (pyToLower source_name) ||
          containsSubstr (pyToLower source_name) (pyToLower kv.1))).isSome) := by
        rw [List.find?_isSome]
        obtain ⟨kv, hkv, hp⟩ := hex
        exact ⟨kv, hkv, hp⟩
      rw [hfind] at hsome
      simp at hsome
    | some kv =>
      have hp := List.find?_some hfind
      refine ⟨kv, List.mem_of_find?_eq_some hfind, hp, ?_⟩
      simp only [get_parsing_rules, hdom, hnoexact, hfind]
  · intro hall
    have hnone : domainRules.find? (fun kv =>
        containsSubstr (pyToLower kv.1) (pyToLower source_name) ||
        containsSubstr (pyToLower source_name) (pyToLower kv.1)) = none :=
      List.find?_eq_none.mpr (fun x hx => by simp [hall x hx])
    have hget : get_parsing_rules domain source_name = none := by
      simp only [get_parsing_rules, hdom, hnoexact, hnone]
    refine ⟨hget, ?_⟩
    intro nowIso storedFp raw
    unfold parse_data parse_data_core
    rw [hget]

/-- Witness for amended claim C10: the source espn_v2 has no exact
live_game entry and receives the espn rules through the overlap. -/
theorem get_parsing_rules_fuzzy_spec_witness :
    ∃ kv ∈ [("nhl_official", nhl_official_game_rules),
            ("espn", espn_game_rules),
            ("nhl_legacy", nhl_legacy_game_rules)],
      (containsSubstr (pyToLower kv.1) (pyToLower "espn_v2") ||
       containsSubstr (pyToLower "espn_v2") (pyToLower kv.1)) = true ∧
      get_parsing_rules "live_game" "espn_v2" = some kv.2 :=
  (get_parsing_rules_fuzzy_spec "live_game" "espn_v2"
    [("nhl_official", nhl_official_game_rules),
     ("espn", espn_game_rules),
     ("nhl_legacy", nhl_legacy_game_rules)] rfl rfl).1
    ⟨("espn", espn_game_rules), by simp, by decide⟩
